import Mathlib

/-!
MSM run-queue statistics: per-CPU load tracking

A shallow embedding of `arch/arm/mach-msm/msm_rq_stats.c`.

* `unsigned int` values are natural numbers reduced modulo `2^32` after every
  arithmetic operation; `cputime64_t`/`u64` values are reduced modulo `2^64`.
* The per-CPU variable `cpuload` is a function from CPU numbers to records.
* A division whose divisor is zero has no result: the functions that divide
  return `Option`, and `none` stands for the division fault.
* The kernel time source (`get_cpu_idle_time`, `get_cpu_iowait_time`, which
  wrap `get_cpu_idle_time_us` and `get_cpu_iowait_time_us`) is a parameter: per
  CPU it supplies the three cumulative counters that lines 114-115 of the
  source store in `cur_idle_time`, `cur_iowait_time` and `cur_wall_time`.
  Within one run of a handler the time source answers with the same counters
  each time it is asked about the same CPU.
-/

namespace MsmRqStats

/-! ## Machine arithmetic -/

/-- Modulus of `unsigned int` arithmetic, `2^32`. -/
def U32 : Nat := 4294967296

/-- Modulus of `u64` / `cputime64_t` arithmetic, `2^64`. -/
def U64 : Nat := 18446744073709551616

/-- Addition of two `unsigned int` values. -/
def add32 (a b : Nat) : Nat := (a + b) % U32

/-- Multiplication of two `unsigned int` values. -/
def mul32 (a b : Nat) : Nat := (a * b) % U32

/-- Subtraction `a - b` of two `u64` values (wraps modulo `2^64`). -/
def sub64 (a b : Nat) : Nat := (a % U64 + (U64 - b % U64)) % U64

/-- The cast `(unsigned int) x` of a `u64` value. -/
def to_u32 (x : Nat) : Nat := x % U32

/-! ## Data model -/

/-- The record `struct cpu_load_data` (the mutex is not modelled; the cpumask
`related_cpus` is the list of the CPU numbers set in it). -/
structure cpu_load_data where
  prev_cpu_idle : Nat
  prev_cpu_wall : Nat
  prev_cpu_iowait : Nat
  avg_load_maxfreq : Nat
  samples : Nat
  window_size : Nat
  cur_freq : Nat
  policy_max : Nat
  related_cpus : List Nat
deriving DecidableEq, Repr

/-- One reading of the time source for one CPU: the values of the locals
`cur_idle_time`, `cur_iowait_time`, `cur_wall_time` of `update_average_load`
after its two calls to the time source. -/
structure cpu_times where
  cur_idle_time : Nat
  cur_iowait_time : Nat
  cur_wall_time : Nat
deriving DecidableEq, Repr

/-- Every field of the record holds a value of its C type. -/
def cpu_load_data.in_range (p : cpu_load_data) : Prop :=
  p.prev_cpu_idle < U64 ∧ p.prev_cpu_wall < U64 ∧ p.prev_cpu_iowait < U64 ∧
  p.avg_load_maxfreq < U32 ∧ p.samples < U32 ∧ p.window_size < U32 ∧
  p.cur_freq < U32 ∧ p.policy_max < U32

instance (p : cpu_load_data) : Decidable p.in_range := by
  unfold cpu_load_data.in_range; infer_instance

/-- Every counter of the reading holds a `u64` value. -/
def cpu_times.in_range (t : cpu_times) : Prop :=
  t.cur_idle_time < U64 ∧ t.cur_iowait_time < U64 ∧ t.cur_wall_time < U64

instance (t : cpu_times) : Decidable t.in_range := by
  unfold cpu_times.in_range; infer_instance

/-! ## `update_average_load` -/

/-- Line 117: `wall_time = (unsigned int) (cur_wall_time - pcpu->prev_cpu_wall)`. -/
def wall_time (t : cpu_times) (pcpu : cpu_load_data) : Nat :=
  to_u32 (sub64 t.cur_wall_time pcpu.prev_cpu_wall)

/-- Line 120: `idle_time = (unsigned int) (cur_idle_time - pcpu->prev_cpu_idle)`. -/
def idle_time_raw (t : cpu_times) (pcpu : cpu_load_data) : Nat :=
  to_u32 (sub64 t.cur_idle_time pcpu.prev_cpu_idle)

/-- Line 123: `iowait_time = (unsigned int) (cur_iowait_time - pcpu->prev_cpu_iowait)`. -/
def iowait_time (t : cpu_times) (pcpu : cpu_load_data) : Nat :=
  to_u32 (sub64 t.cur_iowait_time pcpu.prev_cpu_iowait)

/-- Lines 126-127: `if (idle_time >= iowait_time) idle_time -= iowait_time;`. -/
def idle_time (t : cpu_times) (pcpu : cpu_load_data) : Nat :=
  if idle_time_raw t pcpu ≥ iowait_time t pcpu then
    idle_time_raw t pcpu - iowait_time t pcpu
  else idle_time_raw t pcpu

/-- Line 129: the test `!wall_time || wall_time < idle_time`. -/
def degenerate (t : cpu_times) (pcpu : cpu_load_data) : Prop :=
  wall_time t pcpu = 0 ∨ wall_time t pcpu < idle_time t pcpu

instance (t : cpu_times) (pcpu : cpu_load_data) : Decidable (degenerate t pcpu) := by
  unfold degenerate; infer_instance

/-- Line 132: `cur_load = 100 * (wall_time - idle_time) / wall_time`, evaluated
in `unsigned int`; reached only with `wall_time != 0`. -/
def cur_load (t : cpu_times) (pcpu : cpu_load_data) : Nat :=
  mul32 100 (wall_time t pcpu - idle_time t pcpu) / wall_time t pcpu

/-- Line 135: `load_at_max_freq = (cur_load * freq) / pcpu->policy_max`,
evaluated in `unsigned int`; the value when `policy_max != 0`. -/
def load_at_max_freq (freq : Nat) (t : cpu_times) (pcpu : cpu_load_data) : Nat :=
  mul32 (cur_load t pcpu) freq / pcpu.policy_max

/-- Lines 117-124: the record after the three `prev_*` stores. -/
def store_prev (t : cpu_times) (pcpu : cpu_load_data) : cpu_load_data :=
  { pcpu with
    prev_cpu_wall := t.cur_wall_time
    prev_cpu_idle := t.cur_idle_time
    prev_cpu_iowait := t.cur_iowait_time }

/-- The body of `update_average_load(freq, cpu)` acting on `pcpu`, the record of
`cpu`, with the reading `t` of the time source for `cpu`. `none` is a division
by zero (lines 135 and 147-150). -/
def update_average_load_pcpu (freq : Nat) (t : cpu_times) (pcpu : cpu_load_data) :
    Option cpu_load_data :=
  let p1 := store_prev t pcpu
  if degenerate t pcpu then
    some p1
  else if pcpu.policy_max = 0 then
    none
  else if pcpu.avg_load_maxfreq = 0 then
    some { p1 with
      avg_load_maxfreq := load_at_max_freq freq t pcpu
      window_size := wall_time t pcpu }
  else if add32 (wall_time t pcpu) pcpu.window_size = 0 then
    none
  else
    some { p1 with
      avg_load_maxfreq :=
        add32 (mul32 pcpu.avg_load_maxfreq pcpu.window_size)
              (mul32 (load_at_max_freq freq t pcpu) (wall_time t pcpu))
          / add32 (wall_time t pcpu) pcpu.window_size
      window_size := add32 pcpu.window_size (wall_time t pcpu) }

/-- The function `update_average_load(freq, cpu)` on the per-CPU variable
`cpuload`, with `ts cpu` the reading of the time source for `cpu`. -/
def update_average_load (ts : Nat → cpu_times) (freq cpu : Nat)
    (cpuload : Nat → cpu_load_data) : Option (Nat → cpu_load_data) :=
  (update_average_load_pcpu freq (ts cpu) (cpuload cpu)).map
    (fun p => Function.update cpuload cpu p)

/-- Neither divisor of `update_average_load` is zero on this sample: `policy_max`
(line 135) and, when the merge branch is taken, the 32-bit sum
`wall_time + window_size` (line 150). -/
def divisors_nonzero (t : cpu_times) (pcpu : cpu_load_data) : Prop :=
  pcpu.policy_max ≠ 0 ∧
    (pcpu.avg_load_maxfreq ≠ 0 → add32 (wall_time t pcpu) pcpu.window_size ≠ 0)

instance (t : cpu_times) (pcpu : cpu_load_data) : Decidable (divisors_nonzero t pcpu) := by
  unfold divisors_nonzero; infer_instance

/-! ## `report_load_at_max_freq` -/

/-- The loop `for_each_online_cpu(cpu)` of `report_load_at_max_freq` over the
online CPUs still to visit, with the running `total_load`. -/
def report_loop (ts : Nat → cpu_times) :
    List Nat → Nat → (Nat → cpu_load_data) → Option (Nat × (Nat → cpu_load_data))
  | [], total_load, cpuload => some (total_load, cpuload)
  | cpu :: rest, total_load, cpuload =>
    match update_average_load ts (cpuload cpu).cur_freq cpu cpuload with
    | none => none
    | some cl =>
      report_loop ts rest (add32 total_load (cl cpu).avg_load_maxfreq)
        (Function.update cl cpu { cl cpu with avg_load_maxfreq := 0 })

/-- The function `report_load_at_max_freq()`; `online` lists the CPUs of
`cpu_online_mask`. Returns `total_load` and the new per-CPU records. -/
def report_load_at_max_freq (ts : Nat → cpu_times) (online : List Nat)
    (cpuload : Nat → cpu_load_data) : Option (Nat × (Nat → cpu_load_data)) :=
  report_loop ts online 0 cpuload

/-! ## `cpufreq_transition_handler` -/

/-- The event `struct cpufreq_freqs`: originating CPU, old and new frequency. -/
structure cpufreq_freqs where
  cpu : Nat
  old : Nat
  new : Nat
deriving DecidableEq, Repr

/-- Notifier value `CPUFREQ_PRECHANGE` of `linux/cpufreq.h`. -/
def CPUFREQ_PRECHANGE : Nat := 0

/-- Notifier value `CPUFREQ_POSTCHANGE` of `linux/cpufreq.h`. -/
def CPUFREQ_POSTCHANGE : Nat := 1

/-- The loop `for_each_cpu(j, this_cpu->related_cpus)` of
`cpufreq_transition_handler` over the CPUs `j` still to visit. Line 187 calls
`update_average_load(freqs->old, freqs->cpu)`; line 188 stores into the record
of `j`. -/
def transition_loop (ts : Nat → cpu_times) (freqs : cpufreq_freqs) :
    List Nat → (Nat → cpu_load_data) → Option (Nat → cpu_load_data)
  | [], cpuload => some cpuload
  | j :: rest, cpuload =>
    match update_average_load ts freqs.old freqs.cpu cpuload with
    | none => none
    | some cl =>
      transition_loop ts freqs rest
        (Function.update cl j { cl j with cur_freq := freqs.new })

/-- The function `cpufreq_transition_handler(nb, val, data)` with
`data = freqs`. -/
def cpufreq_transition_handler (ts : Nat → cpu_times) (val : Nat)
    (freqs : cpufreq_freqs) (cpuload : Nat → cpu_load_data) :
    Option (Nat → cpu_load_data) :=
  if val = CPUFREQ_POSTCHANGE then
    transition_loop ts freqs (cpuload freqs.cpu).related_cpus cpuload
  else some cpuload

/-! ## `cpu_hotplug_handler` -/

/-- Notifier value `CPU_ONLINE` of `linux/cpu.h`. -/
def CPU_ONLINE : Nat := 2

/-- Flag `CPU_TASKS_FROZEN` of `linux/cpu.h`. -/
def CPU_TASKS_FROZEN : Nat := 16

/-- Notifier value `CPU_ONLINE_FROZEN`, `CPU_ONLINE | CPU_TASKS_FROZEN`. -/
def CPU_ONLINE_FROZEN : Nat := CPU_ONLINE ||| CPU_TASKS_FROZEN

/-- The function `cpu_hotplug_handler(nb, val, data)` with `data = cpu`; the
return value is always `NOTIFY_OK` and is left out. -/
def cpu_hotplug_handler (val cpu : Nat) (cpuload : Nat → cpu_load_data) :
    Nat → cpu_load_data :=
  if val = CPU_ONLINE ∨ val = CPU_ONLINE_FROZEN then
    Function.update cpuload cpu { cpuload cpu with avg_load_maxfreq := 0 }
  else cpuload

/-! ## Dual boost (`CONFIG_SEC_DVFS_DUAL`, hence `DUALBOOST_DEFERED_QUEUE`) -/

/-- The two static flags of the dual-boost code together with what the code
observes and causes outside itself: whether `dvfs_hotplug_work` is queued,
whether `NON_BOOT_CPU` is online, and how many `KOBJ_ONLINE` uevents were
sent. -/
structure dvfs_state where
  is_dual_locked : Int
  stall_mpdecision : Int
  work_pending : Bool
  cpu_online : Bool
  uevents : Nat
deriving DecidableEq, Repr

/-- Outcome of the platform calls made during one step: the value `cpu_up`
returns (0 on success) and whether `get_cpu_sysdev(NON_BOOT_CPU)` is
non-NULL. -/
structure platform where
  cpu_up_ret : Int
  sysdev : Bool
deriving DecidableEq, Repr

/-- The state assigned by `msm_rq_stats_init` (lines 473-474), with the work
not queued and no uevent sent. -/
def dvfs_init (cpu_online : Bool) : dvfs_state :=
  { is_dual_locked := 0, stall_mpdecision := 0, work_pending := false,
    cpu_online := cpu_online, uevents := 0 }

/-- The function `dvfs_hotplug_callback`: when `NON_BOOT_CPU` is offline call
`cpu_up`; on success (and a sysdev) send the uevent and set
`stall_mpdecision`. -/
def dvfs_hotplug_callback (p : platform) (s : dvfs_state) : dvfs_state :=
  if s.cpu_online = false then
    if p.cpu_up_ret = 0 then
      let s1 := { s with cpu_online := true }
      if p.sysdev then
        { s1 with uevents := s1.uevents + 1, stall_mpdecision := 1 }
      else s1
    else s
  else s

/-- The workqueue runs `dvfs_hotplug_work` if it is queued (also the effect of
`flush_work(&dvfs_hotplug_work)`). -/
def run_dvfs_hotplug_work (p : platform) (s : dvfs_state) : dvfs_state :=
  if s.work_pending then dvfs_hotplug_callback p { s with work_pending := false }
  else s

/-- The function `dual_boost(boost_on)` as compiled with
`DUALBOOST_DEFERED_QUEUE` defined. -/
def dual_boost (p : platform) (boost_on : Nat) (s : dvfs_state) : dvfs_state :=
  if boost_on ≠ 0 then
    if s.is_dual_locked ≠ 0 then s
    else
      let s1 := if s.cpu_online = false then { s with work_pending := true } else s
      { s1 with is_dual_locked := 1 }
  else
    let s1 :=
      if s.stall_mpdecision = 1 then
        let s2 := run_dvfs_hotplug_work p s
        if p.sysdev then
          { s2 with uevents := s2.uevents + 1, stall_mpdecision := 0 }
        else s2
      else s
    { s1 with is_dual_locked := 0 }

/-- The function `get_dual_boost_state()`. -/
def get_dual_boost_state (s : dvfs_state) : Int := s.is_dual_locked

/-! ## Sequences of `update_average_load` calls on one CPU -/

/-- A sequence of calls `update_average_load(freq, cpu)` on the same `cpu`; each
call comes with its frequency and with the reading the time source gives
during that call. -/
def update_calls (cpu : Nat) :
    List (Nat × cpu_times) → (Nat → cpu_load_data) → Option (Nat → cpu_load_data)
  | [], cpuload => some cpuload
  | (freq, t) :: rest, cpuload =>
    match update_average_load (fun _ => t) freq cpu cpuload with
    | none => none
    | some cl => update_calls cpu rest cl

/-- The wall counters of a sequence of calls never decrease, starting from the
stored value `prev`. -/
def wall_nondecreasing : Nat → List (Nat × cpu_times) → Prop
  | _, [] => True
  | prev, c :: rest =>
    prev ≤ c.2.cur_wall_time ∧ wall_nondecreasing c.2.cur_wall_time rest

/-- Deciding `wall_nondecreasing` call by call. -/
def wall_nondecreasing_dec :
    (prev : Nat) → (calls : List (Nat × cpu_times)) → Decidable (wall_nondecreasing prev calls)
  | _, [] => isTrue trivial
  | prev, c :: rest =>
    have := wall_nondecreasing_dec c.2.cur_wall_time rest
    inferInstanceAs
      (Decidable (prev ≤ c.2.cur_wall_time ∧ wall_nondecreasing c.2.cur_wall_time rest))

instance (prev : Nat) (calls : List (Nat × cpu_times)) :
    Decidable (wall_nondecreasing prev calls) :=
  wall_nondecreasing_dec prev calls

/-! ## Run-queue average (`rq_info`) -/

/-- Modelled from the spec: the declaration of `struct rq_data` (type of the
global `rq_info`) is in `linux/rq_stats.h`, which is not among the sources; the
fields are the scalar ones this file reads or writes. -/
structure rq_data where
  rq_avg : Nat
  rq_poll_jiffies : Nat
  def_timer_jiffies : Nat
  rq_poll_last_jiffy : Nat
  def_timer_last_jiffy : Nat
  def_interval : Nat
  def_start_time : Int
  init : Nat
deriving DecidableEq, Repr

/-- The function `get_rq_info()` (`CONFIG_MSM_MPDEC`): the value returned and
the new `rq_info`. -/
def get_rq_info (rq_info : rq_data) : Nat × rq_data :=
  let rq := rq_info.rq_avg
  (rq, { rq_info with rq_avg := 0 })

/-- The text `snprintf(buf, PAGE_SIZE, "%d.%d\n", val/10, val%10)` writes for
an `unsigned int` `val` (`val/10` is below `2^31`, so `%d` prints it as it
is). -/
def format_tenths (val : Nat) : String :=
  toString (val / 10) ++ "." ++ toString (val % 10) ++ "\n"

/-- The function `run_queue_avg_show` as compiled with `CONFIG_SEC_DVFS_DUAL`:
the text written to `buf` and the new `rq_info`. -/
def run_queue_avg_show (is_dual_locked : Int) (rq_info : rq_data) : String × rq_data :=
  let val := rq_info.rq_avg
  let rq1 := { rq_info with rq_avg := 0 }
  let val1 := if is_dual_locked = 1 then 1000 else val
  (format_tenths val1, rq1)

/-! ## Runs of the dual-boost controller -/

/-- One step of the dual-boost controller: a call `dual_boost(boost_on)` or a
run of the deferred work by the workqueue, with the outcome of the platform
calls made during the step. -/
inductive dvfs_step where
  | boost (p : platform) (boost_on : Nat)
  | work (p : platform)
deriving DecidableEq, Repr

/-- The state after one step. -/
def dvfs_do (s : dvfs_state) : dvfs_step → dvfs_state
  | dvfs_step.boost p boost_on => dual_boost p boost_on s
  | dvfs_step.work p => run_dvfs_hotplug_work p s

/-- The state after a sequence of steps, first step first. -/
def dvfs_run (steps : List dvfs_step) (s : dvfs_state) : dvfs_state :=
  steps.foldl dvfs_do s

/-! ## Calls that meet a zero divisor -/

/-- The call reaches a division whose divisor is zero: the sample passes the
test of line 129 and either `policy_max` is 0 (line 135) or the merge branch is
taken with the 32-bit sum `wall_time + window_size` equal to 0 (line 150). -/
def zero_divisor_reached (t : cpu_times) (pcpu : cpu_load_data) : Prop :=
  ¬ degenerate t pcpu ∧
    (pcpu.policy_max = 0 ∨
      (pcpu.avg_load_maxfreq ≠ 0 ∧ add32 (wall_time t pcpu) pcpu.window_size = 0))

instance (t : cpu_times) (pcpu : cpu_load_data) : Decidable (zero_divisor_reached t pcpu) :=
  inferInstanceAs (Decidable (¬ degenerate t pcpu ∧
    (pcpu.policy_max = 0 ∨
      (pcpu.avg_load_maxfreq ≠ 0 ∧ add32 (wall_time t pcpu) pcpu.window_size = 0))))

/-- No call of the sequence reaches a zero divisor, each call being made on the
records the calls before it have left. -/
def no_zero_divisor (cpu : Nat) :
    List (Nat × cpu_times) → (Nat → cpu_load_data) → Prop
  | [], _ => True
  | c :: rest, cpuload =>
    ¬ zero_divisor_reached c.2 (cpuload cpu) ∧
      no_zero_divisor cpu rest
        ((update_average_load (fun _ => c.2) c.1 cpu cpuload).getD cpuload)

/-- Deciding `no_zero_divisor` call by call. -/
def no_zero_divisor_dec (cpu : Nat) :
    (calls : List (Nat × cpu_times)) → (cpuload : Nat → cpu_load_data) →
      Decidable (no_zero_divisor cpu calls cpuload)
  | [], _ => isTrue trivial
  | c :: rest, cpuload =>
    have := no_zero_divisor_dec cpu rest
      ((update_average_load (fun _ => c.2) c.1 cpu cpuload).getD cpuload)
    inferInstanceAs
      (Decidable (¬ zero_divisor_reached c.2 (cpuload cpu) ∧
        no_zero_divisor cpu rest
          ((update_average_load (fun _ => c.2) c.1 cpu cpuload).getD cpuload)))

instance (cpu : Nat) (calls : List (Nat × cpu_times)) (cpuload : Nat → cpu_load_data) :
    Decidable (no_zero_divisor cpu calls cpuload) :=
  no_zero_divisor_dec cpu calls cpuload

/-! ## Concrete records and readings used by the examples -/

/-- A record with all counters zero, an empty window, `cur_freq = 1000` and
`policy_max = 2000`; its frequency domain is CPU 0 and CPU 1. -/
def fresh_record : cpu_load_data :=
  { prev_cpu_idle := 0, prev_cpu_wall := 0, prev_cpu_iowait := 0,
    avg_load_maxfreq := 0, samples := 0, window_size := 0,
    cur_freq := 1000, policy_max := 2000, related_cpus := [0, 1] }

/-- The reading of the scenario of the specification: 50 us idle, no I/O wait,
100 us of wall time. -/
def half_idle_reading : cpu_times :=
  { cur_idle_time := 50, cur_iowait_time := 0, cur_wall_time := 100 }

/-- A reading after 50 seconds without any idle time. -/
def busy_50s_reading : cpu_times :=
  { cur_idle_time := 0, cur_iowait_time := 0, cur_wall_time := 50000000 }

/-- A reading after 100 us that were all idle. -/
def idle_100us_reading : cpu_times :=
  { cur_idle_time := 100, cur_iowait_time := 0, cur_wall_time := 100 }

/-- The next reading, after a further 100 us without idle time. -/
def then_busy_100us_reading : cpu_times :=
  { cur_idle_time := 100, cur_iowait_time := 0, cur_wall_time := 200 }

/-- A reading after 30 seconds without any idle time. -/
def busy_30s_reading : cpu_times :=
  { cur_idle_time := 0, cur_iowait_time := 0, cur_wall_time := 30000000 }

/-- A reading after 60 seconds without any idle time. -/
def busy_60s_reading : cpu_times :=
  { cur_idle_time := 0, cur_iowait_time := 0, cur_wall_time := 60000000 }

/-- A reading in which no counter has advanced since boot. -/
def zero_reading : cpu_times :=
  { cur_idle_time := 0, cur_iowait_time := 0, cur_wall_time := 0 }

/-- A record whose stored average is `2^31`. -/
def huge_avg_record : cpu_load_data :=
  { fresh_record with avg_load_maxfreq := 2147483648, window_size := 1 }

/-- A record in the middle of a window: average 40 over 1000 us, wall counter
last read at 100. -/
def window_record : cpu_load_data :=
  { fresh_record with prev_cpu_wall := 100, avg_load_maxfreq := 40, window_size := 1000 }

/-- A reading whose wall counter (50) is below the stored `prev_cpu_wall` of
`window_record` (100). -/
def wall_back_reading : cpu_times :=
  { cur_idle_time := 0, cur_iowait_time := 0, cur_wall_time := 50 }

/-- The frequency event of CPU 0 from 1000 to 2000. -/
def freq_event : cpufreq_freqs := { cpu := 0, old := 1000, new := 2000 }

/-- A platform on which `cpu_up` fails with `-EBUSY`. -/
def cpu_up_fails : platform := { cpu_up_ret := -16, sysdev := true }

/-- A reading whose wall counter equals the stored `prev_cpu_wall` of
`window_record` while 7 us of idle time were added. -/
def same_wall_reading : cpu_times :=
  { cur_idle_time := 7, cur_iowait_time := 0, cur_wall_time := 100 }

/-- An `rq_info` whose `rq_avg` is 37. -/
def rq_37 : rq_data :=
  { rq_avg := 37, rq_poll_jiffies := 1, def_timer_jiffies := 5, rq_poll_last_jiffy := 0,
    def_timer_last_jiffy := 0, def_interval := 0, def_start_time := 0, init := 1 }

/-- A platform on which `cpu_up` succeeds. -/
def cpu_up_ok : platform := { cpu_up_ret := 0, sysdev := true }

/-- A controller state with `dvfs_hotplug_work` queued, the lock flag clear, the
forced flag set and the secondary CPU offline. -/
def forced_pending_state : dvfs_state :=
  { is_dual_locked := 0, stall_mpdecision := 1, work_pending := true,
    cpu_online := false, uevents := 0 }

/-- The steps `dual_boost(1)`, `dual_boost(0)`, then the deferred work running
with `cpu_up` succeeding. -/
def late_work_steps : List dvfs_step :=
  [dvfs_step.boost cpu_up_ok 1, dvfs_step.boost cpu_up_ok 0, dvfs_step.work cpu_up_ok]

/-- A reading 2^31 us after boot with 21474837 us of busy time. -/
def long_window_reading : cpu_times :=
  { cur_idle_time := 2126008811, cur_iowait_time := 0, cur_wall_time := 2147483648 }

/-- The next reading, 2^31 + 1 us later, without further idle time. -/
def wrap_window_reading : cpu_times :=
  { cur_idle_time := 2126008811, cur_iowait_time := 0, cur_wall_time := 4294967297 }

/-- The next reading after `long_window_reading`, 2^31 us later, without
further idle time. -/
def zero_divisor_reading : cpu_times :=
  { cur_idle_time := 2126008811, cur_iowait_time := 0, cur_wall_time := 4294967296 }

/-- The record left by the half-idle sample of 100 us at `freq = 1000`: average
25 over a window of 100 us. -/
def quarter_load_record : cpu_load_data :=
  { fresh_record with
    prev_cpu_idle := 50, prev_cpu_wall := 100, avg_load_maxfreq := 25, window_size := 100 }

/-- A first reading 5000 s after boot without idle time: the wall delta does
not fit 32 bits. -/
def late_first_reading : cpu_times :=
  { cur_idle_time := 0, cur_iowait_time := 0, cur_wall_time := 5000000000 }

/-- A reading taken after `late_first_reading` in which the wall counter has
not advanced while the idle counter has: a degenerate sample. -/
def late_stalled_reading : cpu_times :=
  { cur_idle_time := 60, cur_iowait_time := 0, cur_wall_time := 5000000000 }

/-- A platform on which `get_cpu_sysdev(NON_BOOT_CPU)` is NULL. -/
def sysdev_missing : platform := { cpu_up_ret := 0, sysdev := false }

/-- The LOCKED state after the deferred work has brought the secondary CPU
online: forced flag set, one uevent sent. -/
def forced_locked_state : dvfs_state :=
  { is_dual_locked := 1, stall_mpdecision := 1, work_pending := false,
    cpu_online := true, uevents := 1 }

end MsmRqStats

namespace MsmRqStats

/-! ## Lemmas on `update_average_load` -/

theorem update_pcpu_degenerate (freq : Nat) (t : cpu_times) (pcpu : cpu_load_data)
    (h : degenerate t pcpu) :
    update_average_load_pcpu freq t pcpu = some (store_prev t pcpu) := by
  simp [update_average_load_pcpu, h]

theorem update_pcpu_first (freq : Nat) (t : cpu_times) (pcpu : cpu_load_data)
    (h : ¬ degenerate t pcpu) (hpm : pcpu.policy_max ≠ 0)
    (h0 : pcpu.avg_load_maxfreq = 0) :
    update_average_load_pcpu freq t pcpu =
      some { store_prev t pcpu with
        avg_load_maxfreq := load_at_max_freq freq t pcpu
        window_size := wall_time t pcpu } := by
  simp [update_average_load_pcpu, h, hpm, h0]

theorem update_pcpu_merge (freq : Nat) (t : cpu_times) (pcpu : cpu_load_data)
    (h : ¬ degenerate t pcpu) (hpm : pcpu.policy_max ≠ 0)
    (h0 : pcpu.avg_load_maxfreq ≠ 0)
    (hd : add32 (wall_time t pcpu) pcpu.window_size ≠ 0) :
    update_average_load_pcpu freq t pcpu =
      some { store_prev t pcpu with
        avg_load_maxfreq :=
          add32 (mul32 pcpu.avg_load_maxfreq pcpu.window_size)
                (mul32 (load_at_max_freq freq t pcpu) (wall_time t pcpu))
            / add32 (wall_time t pcpu) pcpu.window_size
        window_size := add32 pcpu.window_size (wall_time t pcpu) } := by
  simp [update_average_load_pcpu, h, hpm, h0, hd]

theorem not_degenerate_iff (t : cpu_times) (pcpu : cpu_load_data) :
    ¬ degenerate t pcpu ↔ wall_time t pcpu ≠ 0 ∧ idle_time t pcpu ≤ wall_time t pcpu := by
  unfold degenerate
  constructor
  · intro h
    constructor
    · intro h0; exact h (Or.inl h0)
    · by_contra hlt; exact h (Or.inr (Nat.lt_of_not_le hlt))
  · rintro ⟨h1, h2⟩ (h | h)
    · exact h1 h
    · omega

/-! ## C1 -/

/-- C1, as stated, fails: with an empty window, `policy_max = 2000`,
`freq = 2000` and a sample of 50 s of wall time without idle time, the stated
value is `(100 * 50000000 / 50000000) * 2000 / 2000 = 100`, but the code stores
14, because `100 * 50000000` wraps in `unsigned int`. -/
theorem C1_counterexample :
    fresh_record.avg_load_maxfreq = 0 ∧ 0 < fresh_record.policy_max ∧
    wall_time busy_50s_reading fresh_record = 50000000 ∧
    idle_time busy_50s_reading fresh_record = 0 ∧
    (100 * (50000000 - 0) / 50000000) * 2000 / 2000 = 100 ∧
    ((update_average_load (fun _ => busy_50s_reading) 2000 0 (fun _ => fresh_record)).map
        (fun cl => (cl 0).avg_load_maxfreq)) = some 14 := by
  decide

/-- C1 (amended): for a record with an empty window (`avg_load_maxfreq = 0`),
`policy_max > 0`, any `freq` and any sample with a non-zero wall delta that is
not smaller than the effective idle delta, `update_average_load(freq, cpu)`
succeeds and leaves `window_size = wall_delta` and `avg_load_maxfreq` equal to
the stated expression evaluated in `unsigned int` arithmetic, that is
`((100 * (wall - idle)) mod 2^32 / wall * freq) mod 2^32 / policy_max`; this is
the stated value `(100 * (wall - idle) / wall) * freq / policy_max` whenever
both products are below `2^32`. -/
theorem C1_first_sample (ts : Nat → cpu_times) (freq cpu : Nat)
    (cpuload : Nat → cpu_load_data)
    (hempty : (cpuload cpu).avg_load_maxfreq = 0)
    (hpm : 0 < (cpuload cpu).policy_max)
    (hwall : wall_time (ts cpu) (cpuload cpu) ≠ 0)
    (hidle : idle_time (ts cpu) (cpuload cpu) ≤ wall_time (ts cpu) (cpuload cpu)) :
    ∃ cl, update_average_load ts freq cpu cpuload = some cl ∧
      (cl cpu).window_size = wall_time (ts cpu) (cpuload cpu) ∧
      (cl cpu).avg_load_maxfreq =
        ((100 * (wall_time (ts cpu) (cpuload cpu) - idle_time (ts cpu) (cpuload cpu))) % 2 ^ 32
            / wall_time (ts cpu) (cpuload cpu) * freq) % 2 ^ 32
          / (cpuload cpu).policy_max ∧
      (100 * (wall_time (ts cpu) (cpuload cpu) - idle_time (ts cpu) (cpuload cpu)) < 2 ^ 32 →
        100 * (wall_time (ts cpu) (cpuload cpu) - idle_time (ts cpu) (cpuload cpu))
            / wall_time (ts cpu) (cpuload cpu) * freq < 2 ^ 32 →
        (cl cpu).avg_load_maxfreq =
          100 * (wall_time (ts cpu) (cpuload cpu) - idle_time (ts cpu) (cpuload cpu))
              / wall_time (ts cpu) (cpuload cpu) * freq
            / (cpuload cpu).policy_max) := by
  have hnd : ¬ degenerate (ts cpu) (cpuload cpu) :=
    (not_degenerate_iff _ _).2 ⟨hwall, hidle⟩
  have hval : load_at_max_freq freq (ts cpu) (cpuload cpu) =
      ((100 * (wall_time (ts cpu) (cpuload cpu) - idle_time (ts cpu) (cpuload cpu))) % 2 ^ 32
            / wall_time (ts cpu) (cpuload cpu) * freq) % 2 ^ 32
          / (cpuload cpu).policy_max := by
    simp [load_at_max_freq, cur_load, mul32, U32]
  refine ⟨_, by rw [update_average_load, update_pcpu_first _ _ _ hnd (Nat.pos_iff_ne_zero.1 hpm) hempty]; rfl, ?_, ?_, ?_⟩
  · simp
  · simp [hval]
  · intro h1 h2
    simp only [Function.update_same, hval]
    rw [Nat.mod_eq_of_lt h1, Nat.mod_eq_of_lt h2]

/-- C1, the scenario of the specification: `policy_max = 2000`, `freq = 1000`,
`idle_delta = 50`, `iowait_delta = 0`, `wall_delta = 100` gives
`avg_load_maxfreq = 25` and `window_size = 100`. -/
theorem C1_first_sample_witness :
    ∃ cl, update_average_load (fun _ => half_idle_reading) 1000 0 (fun _ => fresh_record)
        = some cl ∧
      (cl 0).window_size = 100 ∧ (cl 0).avg_load_maxfreq = 25 := by
  obtain ⟨cl, h, hw, ha, _⟩ :=
    C1_first_sample (fun _ => half_idle_reading) 1000 0 (fun _ => fresh_record)
      (by decide) (by decide) (by decide) (by decide)
  refine ⟨cl, h, ?_, ?_⟩
  · rw [hw]; decide
  · rw [ha]; decide

/-! ## C2 -/

theorem nat_div_close (n d : Nat) (hd : 0 < d) :
    |((n / d : Nat) : ℚ) - (n : ℚ) / (d : ℚ)| < 1 := by
  have hdq : (0 : ℚ) < (d : ℚ) := by exact_mod_cast hd
  have h1 : ((n / d : Nat) : ℚ) * d ≤ n := by exact_mod_cast Nat.div_mul_le_self n d
  have h2 : (n : ℚ) < (((n / d : Nat) : ℚ) + 1) * d := by
    have h3 : n < (n / d + 1) * d := by
      rw [Nat.mul_comm]; exact Nat.lt_mul_div_succ n hd
    exact_mod_cast h3
  have h4 : ((n / d : Nat) : ℚ) ≤ (n : ℚ) / d := (le_div_iff₀ hdq).2 h1
  have h5 : (n : ℚ) / d < ((n / d : Nat) : ℚ) + 1 := (div_lt_iff₀ hdq).2 h2
  rw [abs_lt]
  constructor <;> linarith

/-- C2, as stated, fails. (a) With `l1 = 0`: from an empty window, a first
sample of 100 us that were all idle (`l1 = 0`, `w1 = 100`) and a second sample
of 100 us without idle time (`l2 = 100`, `w2 = 100`) leave
`avg_load_maxfreq = 100` and `window_size = 100`, while
`(l1*w1 + l2*w2)/(w1+w2) = 50` and `w1 + w2 = 200`. (b) With `l1 > 0` and
products that wrap: two samples of 30 s without idle time (`l1 = l2 = 100`)
leave `avg_load_maxfreq = 28`, while the exact value is 100. -/
theorem C2_counterexample :
    (fresh_record.avg_load_maxfreq = 0 ∧ fresh_record.window_size = 0) ∧
    (¬ degenerate idle_100us_reading fresh_record ∧
      ¬ degenerate then_busy_100us_reading (store_prev idle_100us_reading fresh_record) ∧
      load_at_max_freq 2000 idle_100us_reading fresh_record = 0 ∧
      wall_time idle_100us_reading fresh_record = 100 ∧
      load_at_max_freq 2000 then_busy_100us_reading
        (store_prev idle_100us_reading fresh_record) = 100 ∧
      wall_time then_busy_100us_reading (store_prev idle_100us_reading fresh_record) = 100 ∧
      ((update_average_load (fun _ => idle_100us_reading) 2000 0 (fun _ => fresh_record)).bind
          (update_average_load (fun _ => then_busy_100us_reading) 2000 0)).map
        (fun cl => ((cl 0).avg_load_maxfreq, (cl 0).window_size)) = some (100, 100) ∧
      (0 * 100 + 100 * 100) / (100 + 100) = 50) ∧
    (¬ degenerate busy_30s_reading fresh_record ∧
      ¬ degenerate busy_60s_reading (store_prev busy_30s_reading fresh_record) ∧
      load_at_max_freq 2000 busy_30s_reading fresh_record = 100 ∧
      wall_time busy_30s_reading fresh_record = 30000000 ∧
      load_at_max_freq 2000 busy_60s_reading (store_prev busy_30s_reading fresh_record)
        = 100 ∧
      wall_time busy_60s_reading (store_prev busy_30s_reading fresh_record) = 30000000 ∧
      ((update_average_load (fun _ => busy_30s_reading) 2000 0 (fun _ => fresh_record)).bind
          (update_average_load (fun _ => busy_60s_reading) 2000 0)).map
        (fun cl => ((cl 0).avg_load_maxfreq, (cl 0).window_size)) = some (28, 60000000) ∧
      (100 * 30000000 + 100 * 30000000) / (30000000 + 30000000) = 100) := by
  decide

/-- C2 (amended): starting from an empty window (`avg_load_maxfreq = 0`,
`window_size = 0`) with `policy_max > 0`, for two consecutive non-degenerate
samples with wall deltas `w1`, `w2` and normalized loads `l1`, `l2`, where
`l1 ≠ 0` and neither `l1*w1 + l2*w2` nor `w1 + w2` reaches `2^32`, both
`update_average_load` calls succeed, `avg_load_maxfreq` ends as the integer
quotient `(l1*w1 + l2*w2) / (w1+w2)`, which differs from the exact value by
less than 1, and `window_size = w1 + w2`. -/
theorem C2_two_samples (ts1 ts2 : Nat → cpu_times) (f1 f2 cpu : Nat)
    (cpuload : Nat → cpu_load_data) (l1 w1 l2 w2 : Nat)
    (hempty : (cpuload cpu).avg_load_maxfreq = 0 ∧ (cpuload cpu).window_size = 0)
    (hpm : 0 < (cpuload cpu).policy_max)
    (hnd1 : ¬ degenerate (ts1 cpu) (cpuload cpu))
    (hnd2 : ¬ degenerate (ts2 cpu) (store_prev (ts1 cpu) (cpuload cpu)))
    (hl1 : l1 = load_at_max_freq f1 (ts1 cpu) (cpuload cpu))
    (hw1 : w1 = wall_time (ts1 cpu) (cpuload cpu))
    (hl2 : l2 = load_at_max_freq f2 (ts2 cpu) (store_prev (ts1 cpu) (cpuload cpu)))
    (hw2 : w2 = wall_time (ts2 cpu) (store_prev (ts1 cpu) (cpuload cpu)))
    (hpos : l1 ≠ 0)
    (hfit : l1 * w1 + l2 * w2 < 2 ^ 32) (hwfit : w1 + w2 < 2 ^ 32) :
    ∃ cl1 cl2, update_average_load ts1 f1 cpu cpuload = some cl1 ∧
      update_average_load ts2 f2 cpu cl1 = some cl2 ∧
      (cl2 cpu).avg_load_maxfreq = (l1 * w1 + l2 * w2) / (w1 + w2) ∧
      |((cl2 cpu).avg_load_maxfreq : ℚ) - ((l1 : ℚ) * w1 + (l2 : ℚ) * w2) / ((w1 : ℚ) + w2)| < 1 ∧
      (cl2 cpu).window_size = w1 + w2 := by
  have hpm0 : (cpuload cpu).policy_max ≠ 0 := Nat.pos_iff_ne_zero.1 hpm
  have hw1pos : w1 ≠ 0 := by
    rw [hw1]; exact ((not_degenerate_iff _ _).1 hnd1).1
  have hU : U32 = 2 ^ 32 := by decide
  -- the first call
  have e1 := update_pcpu_first f1 (ts1 cpu) (cpuload cpu) hnd1 hpm0 hempty.1
  rw [← hl1, ← hw1] at e1
  -- the record after the first call
  obtain ⟨r1, hr1⟩ : ∃ r1 : cpu_load_data, r1 =
      { store_prev (ts1 cpu) (cpuload cpu) with avg_load_maxfreq := l1, window_size := w1 } :=
    ⟨_, rfl⟩
  rw [← hr1] at e1
  have hnd2r : ¬ degenerate (ts2 cpu) r1 := by rw [hr1]; exact hnd2
  have hpm1 : r1.policy_max ≠ 0 := by rw [hr1]; exact hpm0
  have havg1 : r1.avg_load_maxfreq ≠ 0 := by rw [hr1]; exact hpos
  have hwt : wall_time (ts2 cpu) r1 = w2 := by rw [hr1, hw2]; rfl
  have hlt : load_at_max_freq f2 (ts2 cpu) r1 = l2 := by rw [hr1, hl2]; rfl
  have hwin : r1.window_size = w1 := by rw [hr1]
  have havg : r1.avg_load_maxfreq = l1 := by rw [hr1]
  have hsum : add32 (wall_time (ts2 cpu) r1) r1.window_size = w1 + w2 := by
    rw [hwt, hwin, add32, hU, Nat.add_comm, Nat.mod_eq_of_lt hwfit]
  have hdiv : add32 (wall_time (ts2 cpu) r1) r1.window_size ≠ 0 := by
    rw [hsum]; omega
  have e2 := update_pcpu_merge f2 (ts2 cpu) r1 hnd2r hpm1 havg1 hdiv
  have hl1w1 : l1 * w1 < 2 ^ 32 := by omega
  have hl2w2 : l2 * w2 < 2 ^ 32 := by omega
  have hnum : add32 (mul32 r1.avg_load_maxfreq r1.window_size)
      (mul32 (load_at_max_freq f2 (ts2 cpu) r1) (wall_time (ts2 cpu) r1))
        = l1 * w1 + l2 * w2 := by
    rw [hwt, hlt, hwin, havg, add32, mul32, mul32, hU, Nat.mod_eq_of_lt hl1w1,
      Nat.mod_eq_of_lt hl2w2, Nat.mod_eq_of_lt hfit]
  have hwin2 : add32 r1.window_size (wall_time (ts2 cpu) r1) = w1 + w2 := by
    rw [hwt, hwin, add32, hU, Nat.mod_eq_of_lt hwfit]
  rw [hnum, hsum, hwin2] at e2
  have e2x : ∃ r2, update_average_load_pcpu f2 (ts2 cpu) r1 = some r2 ∧
      r2.avg_load_maxfreq = (l1 * w1 + l2 * w2) / (w1 + w2) ∧ r2.window_size = w1 + w2 :=
    ⟨_, e2, rfl, rfl⟩
  obtain ⟨r2, e2r, ha2, hw2r⟩ := e2x
  refine ⟨Function.update cpuload cpu r1,
    Function.update (Function.update cpuload cpu r1) cpu r2, ?_, ?_, ?_, ?_, ?_⟩
  · rw [update_average_load, e1]; rfl
  · rw [update_average_load, Function.update_same, e2r]; rfl
  · rw [Function.update_same, ha2]
  · rw [Function.update_same, ha2]
    have hpos2 : 0 < w1 + w2 := by omega
    have := nat_div_close (l1 * w1 + l2 * w2) (w1 + w2) hpos2
    push_cast at this
    exact this
  · rw [Function.update_same, hw2r]

/-- C2 (amended), an instance: from the empty record, 100 us half idle at
`freq = 1000` (`l1 = 25`, `w1 = 100`), then 100 us half idle at `freq = 2000`
(`l2 = 50`, `w2 = 100`): the average is `7500 / 200 = 37`, the exact value is
37.5, and the window is 200. -/
theorem C2_two_samples_witness :
    ∃ cl1 cl2,
      update_average_load (fun _ => half_idle_reading) 1000 0 (fun _ => fresh_record)
        = some cl1 ∧
      update_average_load (fun _ => then_busy_100us_reading) 2000 0 cl1 = some cl2 ∧
      (cl2 0).avg_load_maxfreq = (25 * 100 + 50 * 100) / (100 + 100) ∧
      |((cl2 0).avg_load_maxfreq : ℚ)
          - (((25 : Nat) : ℚ) * (100 : Nat) + ((50 : Nat) : ℚ) * (100 : Nat))
            / (((100 : Nat) : ℚ) + (100 : Nat))| < 1 ∧
      (cl2 0).window_size = 100 + 100 :=
  C2_two_samples (fun _ => half_idle_reading) (fun _ => then_busy_100us_reading) 1000 2000 0
    (fun _ => fresh_record) 25 100 50 100
    (by decide) (by decide) (by decide) (by decide) (by decide) (by decide) (by decide)
    (by decide) (by decide) (by decide) (by decide)

/-! ## Lemmas on `report_load_at_max_freq` -/

theorem update_pcpu_some (freq : Nat) (t : cpu_times) (pcpu : cpu_load_data)
    (h : divisors_nonzero t pcpu) :
    ∃ p, update_average_load_pcpu freq t pcpu = some p := by
  by_cases hd : degenerate t pcpu
  · exact ⟨_, update_pcpu_degenerate freq t pcpu hd⟩
  · by_cases h0 : pcpu.avg_load_maxfreq = 0
    · exact ⟨_, update_pcpu_first freq t pcpu hd h.1 h0⟩
    · exact ⟨_, update_pcpu_merge freq t pcpu hd h.1 h0 (h.2 h0)⟩

theorem update_average_load_eq (ts : Nat → cpu_times) (freq cpu : Nat)
    (cpuload : Nat → cpu_load_data) (p : cpu_load_data)
    (h : update_average_load_pcpu freq (ts cpu) (cpuload cpu) = some p) :
    update_average_load ts freq cpu cpuload = some (Function.update cpuload cpu p) := by
  rw [update_average_load, h]; rfl

theorem report_loop_spec (ts : Nat → cpu_times) :
    ∀ (online : List Nat) (total : Nat) (cpuload : Nat → cpu_load_data),
      total < U32 → online.Nodup →
      (∀ cpu ∈ online, divisors_nonzero (ts cpu) (cpuload cpu)) →
      ∃ (upd cl : Nat → cpu_load_data),
        (∀ cpu ∈ online,
          update_average_load_pcpu (cpuload cpu).cur_freq (ts cpu) (cpuload cpu)
            = some (upd cpu)) ∧
        report_loop ts online total cpuload =
          some ((total + (online.map (fun c => (upd c).avg_load_maxfreq)).sum) % U32, cl) ∧
        (∀ cpu ∈ online, cl cpu = { upd cpu with avg_load_maxfreq := 0 }) ∧
        (∀ cpu, cpu ∉ online → cl cpu = cpuload cpu) := by
  intro online
  induction online with
  | nil =>
    intro total cpuload ht _ _
    refine ⟨cpuload, cpuload, ?_, ?_, ?_, ?_⟩
    · intro cpu h; simp at h
    · simp [report_loop, Nat.mod_eq_of_lt ht]
    · intro cpu h; simp at h
    · intro cpu _; rfl
  | cons c rest ih =>
    intro total cpuload _ hnd hdiv
    have hc : c ∉ rest := (List.nodup_cons.1 hnd).1
    obtain ⟨p, hp⟩ := update_pcpu_some (cpuload c).cur_freq (ts c) (cpuload c)
      (hdiv c (List.mem_cons_self c rest))
    have hstep := update_average_load_eq ts (cpuload c).cur_freq c cpuload p hp
    obtain ⟨cl2, hcl2⟩ : ∃ cl2 : Nat → cpu_load_data, cl2 =
        Function.update (Function.update cpuload c p) c
          { Function.update cpuload c p c with avg_load_maxfreq := 0 } := ⟨_, rfl⟩
    have hother : ∀ cpu, cpu ≠ c → cl2 cpu = cpuload cpu := by
      intro cpu hne
      rw [hcl2, Function.update_noteq hne, Function.update_noteq hne]
    have hself : cl2 c = { p with avg_load_maxfreq := 0 } := by
      rw [hcl2, Function.update_same, Function.update_same]
    have hrest : ∀ cpu ∈ rest, cpu ≠ c := fun cpu hm he => hc (he ▸ hm)
    obtain ⟨upd, cl, h1, h2, h3, h4⟩ :=
      ih (add32 total p.avg_load_maxfreq) cl2 (Nat.mod_lt _ (by decide))
        (List.nodup_cons.1 hnd).2
        (fun cpu hm => by rw [hother cpu (hrest cpu hm)]; exact hdiv cpu (List.mem_cons_of_mem c hm))
    refine ⟨Function.update upd c p, cl, ?_, ?_, ?_, ?_⟩
    · intro cpu hm
      rcases List.mem_cons.1 hm with he | hm
      · rw [he, Function.update_same]; exact hp
      · rw [Function.update_noteq (hrest cpu hm)]
        have := h1 cpu hm
        rwa [hother cpu (hrest cpu hm)] at this
    · have hmap : rest.map (fun x => (Function.update upd c p x).avg_load_maxfreq)
          = rest.map (fun x => (upd x).avg_load_maxfreq) := by
        apply List.map_congr_left
        intro x hx
        rw [Function.update_noteq (hrest x hx)]
      rw [report_loop, hstep]
      simp only [Function.update_same] at hcl2 ⊢
      rw [← hcl2, h2, List.map_cons, List.sum_cons, Function.update_same, hmap, add32]
      rw [Nat.mod_add_mod, Nat.add_assoc]
    · intro cpu hm
      rcases List.mem_cons.1 hm with he | hm
      · rw [he, Function.update_same, h4 c hc, hself]
      · rw [Function.update_noteq (hrest cpu hm)]; exact h3 cpu hm
    · intro cpu hm
      have hne : cpu ≠ c := fun he => hm (he ▸ List.mem_cons_self c rest)
      have hnr : cpu ∉ rest := fun h => hm (List.mem_cons_of_mem c h)
      rw [h4 cpu hnr, hother cpu hne]

/-! ## C3 -/

/-- C3, as stated, fails: with CPUs 0 and 1 online, each holding
`avg_load_maxfreq = 2^31` and a reading equal to its stored counters (so that
`update_average_load` leaves `2^31` on each), the sum is `2^32`, but
`report_load_at_max_freq` returns 0: `total_load` is an `unsigned int`. -/
theorem C3_counterexample :
    (update_average_load (fun _ => zero_reading) huge_avg_record.cur_freq 0
        (fun _ => huge_avg_record)).map (fun cl => (cl 0).avg_load_maxfreq)
      = some 2147483648 ∧
    (update_average_load (fun _ => zero_reading) huge_avg_record.cur_freq 1
        (fun _ => huge_avg_record)).map (fun cl => (cl 1).avg_load_maxfreq)
      = some 2147483648 ∧
    (report_load_at_max_freq (fun _ => zero_reading) [0, 1]
        (fun _ => huge_avg_record)).map Prod.fst = some 0 ∧
    2147483648 + 2147483648 ≠ 0 := by
  decide

/-- C3 (amended): for every duplicate-free list of online CPUs and every state
of their records in which no divisor of `update_average_load` is zero,
`report_load_at_max_freq` returns the sum, over the online CPUs, of the
`avg_load_maxfreq` that `update_average_load(cur_freq, cpu)` produces on that
CPU's record, reduced modulo `2^32`, and afterwards `avg_load_maxfreq` is 0 on
every online CPU. -/
theorem C3_report_total (ts : Nat → cpu_times) (online : List Nat)
    (cpuload : Nat → cpu_load_data) (hnd : online.Nodup)
    (hdiv : ∀ cpu ∈ online, divisors_nonzero (ts cpu) (cpuload cpu)) :
    ∃ (avg : Nat → Nat) (cl : Nat → cpu_load_data),
      (∀ cpu ∈ online, ∃ c1,
        update_average_load ts (cpuload cpu).cur_freq cpu cpuload = some c1 ∧
        (c1 cpu).avg_load_maxfreq = avg cpu) ∧
      report_load_at_max_freq ts online cpuload
        = some ((online.map avg).sum % 2 ^ 32, cl) ∧
      ∀ cpu ∈ online, (cl cpu).avg_load_maxfreq = 0 := by
  obtain ⟨upd, cl, h1, h2, h3, _⟩ :=
    report_loop_spec ts online 0 cpuload (by decide) hnd hdiv
  refine ⟨fun c => (upd c).avg_load_maxfreq, cl, ?_, ?_, ?_⟩
  · intro cpu hm
    refine ⟨_, update_average_load_eq ts _ cpu cpuload (upd cpu) (h1 cpu hm), ?_⟩
    rw [Function.update_same]
  · rw [report_load_at_max_freq, h2, Nat.zero_add]; rfl
  · intro cpu hm
    rw [h3 cpu hm]

/-- C3 (amended), an instance: CPUs 0 and 1 online, both with an empty window,
`cur_freq = 1000`, `policy_max = 2000` and a half-idle sample of 100 us: each
CPU contributes 25 and the total is 50. -/
theorem C3_report_total_witness :
    (∃ (avg : Nat → Nat) (cl : Nat → cpu_load_data),
      (∀ cpu ∈ [0, 1], ∃ c1,
        update_average_load (fun _ => half_idle_reading)
          ((fun _ => fresh_record) cpu : cpu_load_data).cur_freq cpu (fun _ => fresh_record)
            = some c1 ∧
        (c1 cpu).avg_load_maxfreq = avg cpu) ∧
      report_load_at_max_freq (fun _ => half_idle_reading) [0, 1] (fun _ => fresh_record)
        = some (([0, 1].map avg).sum % 2 ^ 32, cl) ∧
      ∀ cpu ∈ [0, 1], (cl cpu).avg_load_maxfreq = 0) ∧
    (report_load_at_max_freq (fun _ => half_idle_reading) [0, 1]
        (fun _ => fresh_record)).map Prod.fst = some 50 :=
  ⟨C3_report_total (fun _ => half_idle_reading) [0, 1] (fun _ => fresh_record)
    (by decide) (by decide), by decide⟩

/-! ## C5 -/

/-- C5, as stated, fails: with CPU 0 online, an empty window and a half-idle
sample of 100 us, `report_load_at_max_freq` returns 25 and leaves
`avg_load_maxfreq = 0` but `window_size = 100` on CPU 0. -/
theorem C5_counterexample :
    (report_load_at_max_freq (fun _ => half_idle_reading) [0] (fun _ => fresh_record)).map
      (fun r => (r.1, (r.2 0).avg_load_maxfreq, (r.2 0).window_size))
      = some (25, 0, 100) := by
  decide

/-- C5 (amended): for every duplicate-free list of online CPUs and every prior
state of their records in which no divisor of `update_average_load` is zero,
`report_load_at_max_freq` returns, and afterwards `avg_load_maxfreq` is 0 on
every online CPU's record, while `window_size` is not reset: it is the value
that `update_average_load(cur_freq, cpu)` left in that record. -/
theorem C5_report_keeps_window (ts : Nat → cpu_times) (online : List Nat)
    (cpuload : Nat → cpu_load_data) (hnd : online.Nodup)
    (hdiv : ∀ cpu ∈ online, divisors_nonzero (ts cpu) (cpuload cpu)) :
    ∃ (total : Nat) (cl : Nat → cpu_load_data),
      report_load_at_max_freq ts online cpuload = some (total, cl) ∧
      ∀ cpu ∈ online, ∃ c1,
        update_average_load ts (cpuload cpu).cur_freq cpu cpuload = some c1 ∧
        (cl cpu).avg_load_maxfreq = 0 ∧
        (cl cpu).window_size = (c1 cpu).window_size := by
  obtain ⟨upd, cl, h1, h2, h3, _⟩ :=
    report_loop_spec ts online 0 cpuload (by decide) hnd hdiv
  refine ⟨_, cl, h2, ?_⟩
  intro cpu hm
  refine ⟨_, update_average_load_eq ts _ cpu cpuload (upd cpu) (h1 cpu hm), ?_, ?_⟩
  · rw [h3 cpu hm]
  · rw [h3 cpu hm, Function.update_same]

/-- C5 (amended), an instance: CPU 0 online with an empty window and a
half-idle sample of 100 us. -/
theorem C5_report_keeps_window_witness :
    ∃ (total : Nat) (cl : Nat → cpu_load_data),
      report_load_at_max_freq (fun _ => half_idle_reading) [0] (fun _ => fresh_record)
        = some (total, cl) ∧
      ∀ cpu ∈ [0], ∃ c1,
        update_average_load (fun _ => half_idle_reading)
          ((fun _ => fresh_record) cpu : cpu_load_data).cur_freq cpu (fun _ => fresh_record)
            = some c1 ∧
        (cl cpu).avg_load_maxfreq = 0 ∧
        (cl cpu).window_size = (c1 cpu).window_size :=
  C5_report_keeps_window (fun _ => half_idle_reading) [0] (fun _ => fresh_record)
    (by decide) (by decide)

/-! ## C4 -/

/-- C4: the code at the failing input. CPUs 0 and 1 share a frequency domain,
both records are fresh and both CPUs read 50 us idle out of 100 us. After the
POSTCHANGE event of CPU 0 (1000 to 2000) the record of CPU 1 has only
`cur_freq` changed: `prev_cpu_idle`, `prev_cpu_wall`, `avg_load_maxfreq` and
`window_size` are still 0, whereas `update_average_load(1000, 1)` gives
`prev_cpu_idle = 50`, `prev_cpu_wall = 100`, `avg_load_maxfreq = 25`,
`window_size = 100`. Line 187 passes `freqs->cpu`, not `j`. -/
theorem C4_related_cpu_not_flushed :
    (fresh_record.related_cpus = [0, 1]) ∧
    (cpufreq_transition_handler (fun _ => half_idle_reading) CPUFREQ_POSTCHANGE freq_event
        (fun _ => fresh_record)).map (fun cl => cl 1)
      = some { fresh_record with cur_freq := 2000 } ∧
    (update_average_load (fun _ => half_idle_reading) 1000 1 (fun _ => fresh_record)).map
        (fun cl => cl 1)
      = some { fresh_record with
          prev_cpu_idle := 50, prev_cpu_wall := 100, prev_cpu_iowait := 0,
          avg_load_maxfreq := 25, window_size := 100 } := by
  decide

/-! ## C6 -/

theorem wrapped_delta (cur prev : Nat) (hprev : prev < U64) (h : cur < prev) :
    to_u32 (sub64 cur prev) = (2 ^ 64 - (prev - cur)) % 2 ^ 32 := by
  unfold to_u32 sub64 U32
  unfold U64 at *
  omega

/-- C6, as stated, fails: a record with `prev_cpu_wall = 100`,
`avg_load_maxfreq = 40`, `window_size = 1000` and a reading whose wall counter
is 50 (smaller than the stored 100): the wall delta used is `2^32 - 50`, the
sample is merged, and the record ends with `avg_load_maxfreq = 42` and
`window_size = 950`. -/
theorem C6_counterexample :
    wall_back_reading.cur_wall_time < window_record.prev_cpu_wall ∧
    wall_time wall_back_reading window_record = 4294967246 ∧
    (window_record.avg_load_maxfreq = 40 ∧ window_record.window_size = 1000) ∧
    (update_average_load (fun _ => wall_back_reading) 1000 0 (fun _ => window_record)).map
        (fun cl => ((cl 0).avg_load_maxfreq, (cl 0).window_size))
      = some (42, 950) := by
  decide

/-- C6 (amended): `update_average_load` has no check for a counter that went
backwards. For every record (its fields in range) and every sample, the delta
of a cumulative counter that is smaller than the stored `prev_*` value is the
wrapped difference `2^64 - (prev - cur)` truncated to 32 bits, and it is used
like any other delta: `avg_load_maxfreq` and `window_size` are
left unchanged when the resulting wall delta is 0 or smaller than the resulting
effective idle delta, and otherwise (no divisor being zero) the sample is
merged, `window_size` becoming the wall delta (empty window) or growing by it
modulo `2^32`. -/
theorem C6_backward_counter_wraps (ts : Nat → cpu_times) (freq cpu : Nat)
    (cpuload : Nat → cpu_load_data)
    (hr : (cpuload cpu).in_range) :
    ((ts cpu).cur_wall_time < (cpuload cpu).prev_cpu_wall →
      wall_time (ts cpu) (cpuload cpu)
        = (2 ^ 64 - ((cpuload cpu).prev_cpu_wall - (ts cpu).cur_wall_time)) % 2 ^ 32) ∧
    ((ts cpu).cur_idle_time < (cpuload cpu).prev_cpu_idle →
      idle_time_raw (ts cpu) (cpuload cpu)
        = (2 ^ 64 - ((cpuload cpu).prev_cpu_idle - (ts cpu).cur_idle_time)) % 2 ^ 32) ∧
    ((ts cpu).cur_iowait_time < (cpuload cpu).prev_cpu_iowait →
      iowait_time (ts cpu) (cpuload cpu)
        = (2 ^ 64 - ((cpuload cpu).prev_cpu_iowait - (ts cpu).cur_iowait_time)) % 2 ^ 32) ∧
    (wall_time (ts cpu) (cpuload cpu) = 0 ∨
        wall_time (ts cpu) (cpuload cpu) < idle_time (ts cpu) (cpuload cpu) →
      ∃ cl, update_average_load ts freq cpu cpuload = some cl ∧
        (cl cpu).avg_load_maxfreq = (cpuload cpu).avg_load_maxfreq ∧
        (cl cpu).window_size = (cpuload cpu).window_size) ∧
    (wall_time (ts cpu) (cpuload cpu) ≠ 0 →
      idle_time (ts cpu) (cpuload cpu) ≤ wall_time (ts cpu) (cpuload cpu) →
      divisors_nonzero (ts cpu) (cpuload cpu) →
      ∃ cl, update_average_load ts freq cpu cpuload = some cl ∧
        (cl cpu).window_size =
          if (cpuload cpu).avg_load_maxfreq = 0 then wall_time (ts cpu) (cpuload cpu)
          else ((cpuload cpu).window_size + wall_time (ts cpu) (cpuload cpu)) % 2 ^ 32) := by
  obtain ⟨hri, hrw, hro, _⟩ := hr
  refine ⟨fun h => wrapped_delta _ _ hrw h, fun h => wrapped_delta _ _ hri h,
    fun h => wrapped_delta _ _ hro h, ?_, ?_⟩
  · intro hdeg
    refine ⟨_, update_average_load_eq ts freq cpu cpuload _
      (update_pcpu_degenerate freq (ts cpu) (cpuload cpu) hdeg), ?_, ?_⟩
    · rw [Function.update_same]; rfl
    · rw [Function.update_same]; rfl
  · intro hw hi hdiv
    have hnd : ¬ degenerate (ts cpu) (cpuload cpu) := (not_degenerate_iff _ _).2 ⟨hw, hi⟩
    by_cases h0 : (cpuload cpu).avg_load_maxfreq = 0
    · refine ⟨_, update_average_load_eq ts freq cpu cpuload _
        (update_pcpu_first freq (ts cpu) (cpuload cpu) hnd hdiv.1 h0), ?_⟩
      rw [Function.update_same, if_pos h0]
    · refine ⟨_, update_average_load_eq ts freq cpu cpuload _
        (update_pcpu_merge freq (ts cpu) (cpuload cpu) hnd hdiv.1 h0 (hdiv.2 h0)), ?_⟩
      rw [Function.update_same, if_neg h0]
      rfl

/-- C6 (amended), an instance: the record with `prev_cpu_wall = 100` and the
reading with wall counter 50. -/
theorem C6_backward_counter_wraps_witness :
    wall_time wall_back_reading window_record = (2 ^ 64 - (100 - 50)) % 2 ^ 32 ∧
    ∃ cl, update_average_load (fun _ => wall_back_reading) 1000 0 (fun _ => window_record)
        = some cl ∧
      (cl 0).window_size = (1000 + wall_time wall_back_reading window_record) % 2 ^ 32 := by
  obtain ⟨h1, _, _, _, h5⟩ :=
    C6_backward_counter_wraps (fun _ => wall_back_reading) 1000 0 (fun _ => window_record)
      (by decide)
  refine ⟨h1 (by decide), ?_⟩
  obtain ⟨cl, hcl, hw⟩ := h5 (by decide) (by decide) (by decide)
  exact ⟨cl, hcl, hw⟩

/-! ## C7 -/

/-- C7, as stated, fails: from the initial state (UNLOCKED, forced flag unset,
secondary CPU offline), `dual_boost(1)` followed by the deferred bring-online
work in which `cpu_up` fails leaves `is_dual_locked = 1` (and
`stall_mpdecision = 0`, the secondary CPU still offline). -/
theorem C7_counterexample :
    (dvfs_init false).is_dual_locked = 0 ∧ (dvfs_init false).cpu_online = false ∧
    cpu_up_fails.cpu_up_ret ≠ 0 ∧
    run_dvfs_hotplug_work cpu_up_fails (dual_boost cpu_up_fails 1 (dvfs_init false))
      = { is_dual_locked := 1, stall_mpdecision := 0, work_pending := false,
          cpu_online := false, uevents := 0 } := by
  decide

/-- C7 (amended): for every call `dual_boost(1)` made in the UNLOCKED state with
the secondary CPU offline, if the bring-online request (`cpu_up`, made by the
deferred work) fails, the controller ends with `stall_mpdecision` unchanged
(unset if it was unset), no uevent sent, the secondary CPU still offline, and
`is_dual_locked = 1` (LOCKED): the lock flag is set whatever `cpu_up`
returns. -/
theorem C7_failed_cpu_up_still_locks (p1 p2 : platform) (s : dvfs_state)
    (hunlocked : s.is_dual_locked = 0) (hoffline : s.cpu_online = false)
    (hfail : p2.cpu_up_ret ≠ 0) :
    (dual_boost p1 1 s).is_dual_locked = 1 ∧
    (run_dvfs_hotplug_work p2 (dual_boost p1 1 s)).is_dual_locked = 1 ∧
    (run_dvfs_hotplug_work p2 (dual_boost p1 1 s)).stall_mpdecision = s.stall_mpdecision ∧
    (run_dvfs_hotplug_work p2 (dual_boost p1 1 s)).cpu_online = false ∧
    (run_dvfs_hotplug_work p2 (dual_boost p1 1 s)).uevents = s.uevents := by
  simp [dual_boost, run_dvfs_hotplug_work, dvfs_hotplug_callback, hunlocked, hoffline, hfail]

/-- C7 (amended), an instance: the initial state and `cpu_up` failing with
`-EBUSY`. -/
theorem C7_failed_cpu_up_still_locks_witness :
    (dual_boost cpu_up_fails 1 (dvfs_init false)).is_dual_locked = 1 ∧
    (run_dvfs_hotplug_work cpu_up_fails
      (dual_boost cpu_up_fails 1 (dvfs_init false))).is_dual_locked = 1 ∧
    (run_dvfs_hotplug_work cpu_up_fails
      (dual_boost cpu_up_fails 1 (dvfs_init false))).stall_mpdecision
        = (dvfs_init false).stall_mpdecision ∧
    (run_dvfs_hotplug_work cpu_up_fails
      (dual_boost cpu_up_fails 1 (dvfs_init false))).cpu_online = false ∧
    (run_dvfs_hotplug_work cpu_up_fails
      (dual_boost cpu_up_fails 1 (dvfs_init false))).uevents = (dvfs_init false).uevents :=
  C7_failed_cpu_up_still_locks cpu_up_fails cpu_up_fails (dvfs_init false)
    (by decide) (by decide) (by decide)

/-! ## Lemmas on `cpufreq_transition_handler` -/

theorem wall_time_of_prev_eq (t : cpu_times) (p : cpu_load_data)
    (h : p.prev_cpu_wall = t.cur_wall_time) : wall_time t p = 0 := by
  unfold wall_time sub64 to_u32
  rw [h]
  have hlt : t.cur_wall_time % U64 < U64 := Nat.mod_lt _ (by decide)
  have he : t.cur_wall_time % U64 + (U64 - t.cur_wall_time % U64) = U64 := by omega
  rw [he, Nat.mod_self]
  rfl

theorem update_pcpu_frame (freq : Nat) (t : cpu_times) (p q : cpu_load_data)
    (h : update_average_load_pcpu freq t p = some q) :
    q.prev_cpu_wall = t.cur_wall_time ∧ q.cur_freq = p.cur_freq := by
  unfold update_average_load_pcpu at h
  simp only at h
  split_ifs at h <;> (cases h; exact ⟨rfl, rfl⟩)

theorem transition_loop_spec (ts : Nat → cpu_times) (freqs : cpufreq_freqs) :
    ∀ (related : List Nat) (cpuload : Nat → cpu_load_data),
      (degenerate (ts freqs.cpu) (cpuload freqs.cpu) ∨
        divisors_nonzero (ts freqs.cpu) (cpuload freqs.cpu)) →
      ∃ cl, transition_loop ts freqs related cpuload = some cl ∧
        (∀ j ∈ related, (cl j).cur_freq = freqs.new) ∧
        (∀ j, j ∉ related → (cl j).cur_freq = (cpuload j).cur_freq) := by
  intro related
  induction related with
  | nil =>
    intro cpuload _
    exact ⟨cpuload, rfl, fun j h => by simp at h, fun j _ => rfl⟩
  | cons j rest ih =>
    intro cpuload hok
    obtain ⟨q, hq⟩ : ∃ q, update_average_load_pcpu freqs.old (ts freqs.cpu)
        (cpuload freqs.cpu) = some q := by
      rcases hok with hd | hd
      · exact ⟨_, update_pcpu_degenerate _ _ _ hd⟩
      · exact update_pcpu_some _ _ _ hd
    obtain ⟨hqw, hqf⟩ := update_pcpu_frame _ _ _ _ hq
    have hstep := update_average_load_eq ts freqs.old freqs.cpu cpuload q hq
    obtain ⟨cl1, hcl1⟩ : ∃ cl1 : Nat → cpu_load_data,
        cl1 = Function.update cpuload freqs.cpu q := ⟨_, rfl⟩
    obtain ⟨cl2, hcl2⟩ : ∃ cl2 : Nat → cpu_load_data,
        cl2 = Function.update cl1 j { cl1 j with cur_freq := freqs.new } := ⟨_, rfl⟩
    have hfreq1 : ∀ k, (cl1 k).cur_freq = (cpuload k).cur_freq := by
      intro k
      by_cases hk : k = freqs.cpu
      · rw [hcl1, hk, Function.update_same, hqf]
      · rw [hcl1, Function.update_noteq hk]
    have hwall1 : (cl1 freqs.cpu).prev_cpu_wall = (ts freqs.cpu).cur_wall_time := by
      rw [hcl1, Function.update_same, hqw]
    have hwall2 : (cl2 freqs.cpu).prev_cpu_wall = (ts freqs.cpu).cur_wall_time := by
      by_cases hk : freqs.cpu = j
      · rw [hcl2, ← hk, Function.update_same]; exact hwall1
      · rw [hcl2, Function.update_noteq hk]; exact hwall1
    obtain ⟨cl, h1, h2, h3⟩ :=
      ih cl2 (Or.inl (Or.inl (wall_time_of_prev_eq _ _ hwall2)))
    refine ⟨cl, ?_, ?_, ?_⟩
    · rw [transition_loop, hstep, ← hcl1]
      show transition_loop ts freqs rest
        (Function.update cl1 j { cl1 j with cur_freq := freqs.new }) = some cl
      rw [← hcl2, h1]
    · intro k hk
      by_cases hkr : k ∈ rest
      · exact h2 k hkr
      · have hkj : k = j := by
          rcases List.mem_cons.1 hk with h | h
          · exact h
          · exact absurd h hkr
        rw [h3 k hkr, hkj, hcl2, Function.update_same]
    · intro k hk
      have hkj : k ≠ j := fun h => hk (h ▸ List.mem_cons_self j rest)
      have hkr : k ∉ rest := fun h => hk (List.mem_cons_of_mem j h)
      rw [h3 k hkr, hcl2, Function.update_noteq hkj, hfreq1]

/-! ## C8 -/

/-- C8: for every POSTCHANGE frequency event `{cpu X, old_freq, new_freq}` (no
divisor of `update_average_load` being zero on the record of X),
`cpufreq_transition_handler` returns, and afterwards `cur_freq` equals
`new_freq` on the record of every CPU in the `related_cpus` of X and is
unchanged on the record of every CPU outside that set. -/
theorem C8_cur_freq_after_transition (ts : Nat → cpu_times) (freqs : cpufreq_freqs)
    (cpuload : Nat → cpu_load_data)
    (hdiv : divisors_nonzero (ts freqs.cpu) (cpuload freqs.cpu)) :
    ∃ cl, cpufreq_transition_handler ts CPUFREQ_POSTCHANGE freqs cpuload = some cl ∧
      (∀ j ∈ (cpuload freqs.cpu).related_cpus, (cl j).cur_freq = freqs.new) ∧
      (∀ j, j ∉ (cpuload freqs.cpu).related_cpus → (cl j).cur_freq = (cpuload j).cur_freq) := by
  obtain ⟨cl, h1, h2, h3⟩ :=
    transition_loop_spec ts freqs (cpuload freqs.cpu).related_cpus cpuload (Or.inr hdiv)
  refine ⟨cl, ?_, h2, h3⟩
  rw [cpufreq_transition_handler, if_pos rfl, h1]

/-- C8, an instance: the event of CPU 0 from 1000 to 2000 with fresh records
whose frequency domain is CPUs 0 and 1; CPU 2 keeps `cur_freq = 1000`. -/
theorem C8_cur_freq_after_transition_witness :
    divisors_nonzero half_idle_reading fresh_record ∧
    (∃ cl, cpufreq_transition_handler (fun _ => half_idle_reading) CPUFREQ_POSTCHANGE
        freq_event (fun _ => fresh_record) = some cl ∧
      (∀ j ∈ [0, 1], (cl j).cur_freq = 2000) ∧
      (∀ j, j ∉ [0, 1] → (cl j).cur_freq = 1000)) :=
  ⟨by decide,
    C8_cur_freq_after_transition (fun _ => half_idle_reading) freq_event
      (fun _ => fresh_record) (by decide)⟩

/-! ## C9 -/

/-- C9: for every CPU and every prior state, after `cpu_hotplug_handler` handles
`CPU_ONLINE` or `CPU_ONLINE_FROZEN` for that CPU its `avg_load_maxfreq` is 0
while every other field of that record, and every other CPU's record, is
unchanged; for any other hot-plug event no record changes at all. -/
theorem C9_hotplug_resets_only_avg (val cpu : Nat) (cpuload : Nat → cpu_load_data) :
    (val = CPU_ONLINE ∨ val = CPU_ONLINE_FROZEN →
      cpu_hotplug_handler val cpu cpuload cpu
          = { cpuload cpu with avg_load_maxfreq := 0 } ∧
      (cpu_hotplug_handler val cpu cpuload cpu).avg_load_maxfreq = 0 ∧
      (cpu_hotplug_handler val cpu cpuload cpu).prev_cpu_idle = (cpuload cpu).prev_cpu_idle ∧
      (cpu_hotplug_handler val cpu cpuload cpu).prev_cpu_wall = (cpuload cpu).prev_cpu_wall ∧
      (cpu_hotplug_handler val cpu cpuload cpu).prev_cpu_iowait
          = (cpuload cpu).prev_cpu_iowait ∧
      (cpu_hotplug_handler val cpu cpuload cpu).window_size = (cpuload cpu).window_size ∧
      (cpu_hotplug_handler val cpu cpuload cpu).cur_freq = (cpuload cpu).cur_freq ∧
      (cpu_hotplug_handler val cpu cpuload cpu).policy_max = (cpuload cpu).policy_max ∧
      ∀ other, other ≠ cpu → cpu_hotplug_handler val cpu cpuload other = cpuload other) ∧
    (¬ (val = CPU_ONLINE ∨ val = CPU_ONLINE_FROZEN) →
      cpu_hotplug_handler val cpu cpuload = cpuload) := by
  constructor
  · intro h
    have he : cpu_hotplug_handler val cpu cpuload
        = Function.update cpuload cpu { cpuload cpu with avg_load_maxfreq := 0 } := by
      rw [cpu_hotplug_handler, if_pos h]
    rw [he, Function.update_same]
    refine ⟨rfl, rfl, rfl, rfl, rfl, rfl, rfl, rfl, ?_⟩
    intro other ho
    rw [Function.update_noteq ho]
  · intro h
    rw [cpu_hotplug_handler, if_neg h]

/-- C9, an instance: `CPU_ONLINE_FROZEN` (`0x12`) for CPU 1 whose record holds
an average of 40 clears that average and keeps its window of 1000. -/
theorem C9_hotplug_resets_only_avg_witness :
    (cpu_hotplug_handler 18 1 (fun _ => window_record) 1).avg_load_maxfreq = 0 ∧
    (cpu_hotplug_handler 18 1 (fun _ => window_record) 1).window_size = 1000 ∧
    cpu_hotplug_handler 18 1 (fun _ => window_record) 0 = window_record := by
  obtain ⟨_, h0, _, _, _, hw, _, _, ho⟩ :=
    (C9_hotplug_resets_only_avg 18 1 (fun _ => window_record)).1 (by decide)
  exact ⟨h0, hw, ho 0 (by decide)⟩

/-! ## C10 -/

/-- C10: for every record state, a sample whose wall delta is 0, or whose wall
delta is smaller than the effective idle delta, makes `update_average_load`
return with `avg_load_maxfreq` and `window_size` exactly as they were. -/
theorem C10_degenerate_sample_discarded (ts : Nat → cpu_times) (freq cpu : Nat)
    (cpuload : Nat → cpu_load_data)
    (hdeg : wall_time (ts cpu) (cpuload cpu) = 0 ∨
      wall_time (ts cpu) (cpuload cpu) < idle_time (ts cpu) (cpuload cpu)) :
    ∃ cl, update_average_load ts freq cpu cpuload = some cl ∧
      (cl cpu).avg_load_maxfreq = (cpuload cpu).avg_load_maxfreq ∧
      (cl cpu).window_size = (cpuload cpu).window_size := by
  refine ⟨_, update_average_load_eq ts freq cpu cpuload _
    (update_pcpu_degenerate freq (ts cpu) (cpuload cpu) hdeg), ?_, ?_⟩
  · rw [Function.update_same]; rfl
  · rw [Function.update_same]; rfl

/-- C10, an instance: the record with average 40 over 1000 us and a reading
whose wall counter equals the stored one (wall delta 0). -/
theorem C10_degenerate_sample_discarded_witness :
    wall_time same_wall_reading window_record = 0 ∧
    ∃ cl, update_average_load (fun _ => same_wall_reading) 1000 0 (fun _ => window_record)
        = some cl ∧
      (cl 0).avg_load_maxfreq = 40 ∧ (cl 0).window_size = 1000 :=
  ⟨by decide,
    C10_degenerate_sample_discarded (fun _ => same_wall_reading) 1000 0
      (fun _ => window_record) (Or.inl (by decide))⟩

/-! ## Lemmas on sequences of calls -/

theorem wall_time_eq_sub (t : cpu_times) (p : cpu_load_data)
    (hle : p.prev_cpu_wall ≤ t.cur_wall_time) (hr : t.cur_wall_time < 2 ^ 64)
    (hd : t.cur_wall_time - p.prev_cpu_wall < 2 ^ 32) :
    wall_time t p = t.cur_wall_time - p.prev_cpu_wall := by
  unfold wall_time to_u32 sub64 U32 U64
  omega

theorem update_pcpu_step (freq : Nat) (t : cpu_times) (p : cpu_load_data)
    (hpm : p.policy_max ≠ 0) (hle : p.prev_cpu_wall ≤ t.cur_wall_time)
    (hr : t.cur_wall_time < 2 ^ 64)
    (hwin : p.window_size + (t.cur_wall_time - p.prev_cpu_wall) < 2 ^ 32) :
    ∃ q, update_average_load_pcpu freq t p = some q ∧
      q.prev_cpu_idle = t.cur_idle_time ∧ q.prev_cpu_wall = t.cur_wall_time ∧
      q.prev_cpu_iowait = t.cur_iowait_time ∧ q.policy_max = p.policy_max ∧
      q.window_size ≤ p.window_size + (t.cur_wall_time - p.prev_cpu_wall) ∧
      (q.avg_load_maxfreq = p.avg_load_maxfreq ∨
        (¬ degenerate t p ∧ q.avg_load_maxfreq = load_at_max_freq freq t p) ∨
        (¬ degenerate t p ∧ q.avg_load_maxfreq =
          (p.avg_load_maxfreq * p.window_size % 2 ^ 32
              + load_at_max_freq freq t p * (t.cur_wall_time - p.prev_cpu_wall) % 2 ^ 32)
            % 2 ^ 32 / (p.window_size + (t.cur_wall_time - p.prev_cpu_wall)))) := by
  have hw : wall_time t p = t.cur_wall_time - p.prev_cpu_wall :=
    wall_time_eq_sub t p hle hr (by omega)
  by_cases hd : degenerate t p
  · exact ⟨_, update_pcpu_degenerate freq t p hd, rfl, rfl, rfl, rfl,
      Nat.le_add_right _ _, Or.inl rfl⟩
  · by_cases h0 : p.avg_load_maxfreq = 0
    · refine ⟨_, update_pcpu_first freq t p hd hpm h0, rfl, rfl, rfl, rfl, ?_,
        Or.inr (Or.inl ⟨hd, rfl⟩)⟩
      show wall_time t p ≤ _
      rw [hw]; exact Nat.le_add_left _ _
    · have hw0 : wall_time t p ≠ 0 := ((not_degenerate_iff t p).1 hd).1
      have hsum : add32 (wall_time t p) p.window_size
          = p.window_size + (t.cur_wall_time - p.prev_cpu_wall) := by
        rw [hw, add32, Nat.add_comm]
        exact Nat.mod_eq_of_lt hwin
      have hsum2 : add32 p.window_size (wall_time t p)
          = p.window_size + (t.cur_wall_time - p.prev_cpu_wall) := by
        rw [hw, add32]
        exact Nat.mod_eq_of_lt hwin
      have hne : add32 (wall_time t p) p.window_size ≠ 0 := by
        rw [hsum]; rw [hw] at hw0; omega
      refine ⟨_, update_pcpu_merge freq t p hd hpm h0 hne, rfl, rfl, rfl, rfl, ?_,
        Or.inr (Or.inr ⟨hd, ?_⟩)⟩
      · show add32 p.window_size (wall_time t p) ≤ _
        rw [hsum2]
      · show add32 (mul32 p.avg_load_maxfreq p.window_size)
            (mul32 (load_at_max_freq freq t p) (wall_time t p))
              / add32 (wall_time t p) p.window_size = _
        rw [hsum, hw]
        rfl

theorem wall_chain_tail (a : Nat) (c : Nat × cpu_times) (calls : List (Nat × cpu_times))
    (h : wall_nondecreasing a (c :: calls)) :
    a ≤ c.2.cur_wall_time ∧ wall_nondecreasing c.2.cur_wall_time calls :=
  h

theorem wall_chain_le (calls : List (Nat × cpu_times)) :
    ∀ (a : Nat), wall_nondecreasing a calls → ∀ c ∈ calls, a ≤ c.2.cur_wall_time := by
  induction calls with
  | nil => intro a _ c hc; simp at hc
  | cons d rest ih =>
    intro a h c hc
    obtain ⟨h1, h2⟩ := wall_chain_tail a d rest h
    rcases List.mem_cons.1 hc with he | hm
    · rw [he]; exact h1
    · exact Nat.le_trans h1 (ih _ h2 c hm)

/-! ## C11 -/

theorem update_pcpu_returns (freq : Nat) (t : cpu_times) (p : cpu_load_data)
    (h : ¬ zero_divisor_reached t p) :
    ∃ q, update_average_load_pcpu freq t p = some q ∧
      q.prev_cpu_idle = t.cur_idle_time ∧ q.prev_cpu_wall = t.cur_wall_time ∧
      q.prev_cpu_iowait = t.cur_iowait_time := by
  by_cases hd : degenerate t p
  · exact ⟨_, update_pcpu_degenerate freq t p hd, rfl, rfl, rfl⟩
  · have hpm : p.policy_max ≠ 0 := fun h0 => h ⟨hd, Or.inl h0⟩
    by_cases h0 : p.avg_load_maxfreq = 0
    · exact ⟨_, update_pcpu_first freq t p hd hpm h0, rfl, rfl, rfl⟩
    · have hne : add32 (wall_time t p) p.window_size ≠ 0 :=
        fun hz => h ⟨hd, Or.inr ⟨h0, hz⟩⟩
      exact ⟨_, update_pcpu_merge freq t p hd hpm h0 hne, rfl, rfl, rfl⟩

theorem update_pcpu_none_iff_zero_divisor (freq : Nat) (t : cpu_times) (p : cpu_load_data) :
    update_average_load_pcpu freq t p = none ↔ zero_divisor_reached t p := by
  constructor
  · intro hn
    by_contra hz
    obtain ⟨q, hq, _⟩ := update_pcpu_returns freq t p hz
    rw [hq] at hn
    exact Option.noConfusion hn
  · rintro ⟨hd, hz⟩
    unfold update_average_load_pcpu
    simp only [if_neg hd]
    rcases hz with h0 | ⟨ha, hs⟩
    · rw [if_pos h0]
    · by_cases h0 : p.policy_max = 0
      · rw [if_pos h0]
      · rw [if_neg h0, if_neg ha, if_pos hs]

/-- C11: for every sequence of `update_average_load` calls on one CPU, whatever
the cumulative counters supplied (in particular non-decreasing ones), in which
no call reaches a division by zero, every call returns, and after the last one
(hence after each call, taking the sequence up to it) `prev_cpu_idle`,
`prev_cpu_wall` and `prev_cpu_iowait` equal the cumulative values supplied to
that call, whether or not the sample was discarded as degenerate. -/
theorem C11_prev_fields_track (cpu : Nat) (pre : List (Nat × cpu_times))
    (freq : Nat) (t : cpu_times) :
    ∀ (cpuload : Nat → cpu_load_data),
      no_zero_divisor cpu (pre ++ [(freq, t)]) cpuload →
      ∃ cl, update_calls cpu (pre ++ [(freq, t)]) cpuload = some cl ∧
        (cl cpu).prev_cpu_idle = t.cur_idle_time ∧
        (cl cpu).prev_cpu_wall = t.cur_wall_time ∧
        (cl cpu).prev_cpu_iowait = t.cur_iowait_time := by
  induction pre with
  | nil =>
    intro cpuload hok
    obtain ⟨hz, _⟩ := hok
    obtain ⟨q, hq, h1, h2, h3⟩ := update_pcpu_returns freq t (cpuload cpu) hz
    refine ⟨Function.update cpuload cpu q, ?_, ?_, ?_, ?_⟩
    · rw [List.nil_append, update_calls,
        update_average_load_eq (fun _ => t) freq cpu cpuload q hq]
      rfl
    · rw [Function.update_same, h1]
    · rw [Function.update_same, h2]
    · rw [Function.update_same, h3]
  | cons c pre ih =>
    intro cpuload hok
    obtain ⟨hz, hrest⟩ := hok
    obtain ⟨q, hq, _⟩ := update_pcpu_returns c.1 c.2 (cpuload cpu) hz
    have hstep := update_average_load_eq (fun _ => c.2) c.1 cpu cpuload q hq
    rw [hstep] at hrest
    obtain ⟨cl, hcl, hres⟩ := ih (Function.update cpuload cpu q) hrest
    refine ⟨cl, ?_, hres⟩
    rw [List.cons_append, update_calls, hstep]
    exact hcl

/-- C11, an instance: from the fresh record, a first call 5000 s after boot
(its wall delta does not fit 32 bits), then a call whose reading has the same
wall counter (a degenerate sample) and an idle counter of 60: after the second
call the `prev_*` fields are 60, 5000000000, 0. -/
theorem C11_prev_fields_track_witness :
    degenerate late_stalled_reading (store_prev late_first_reading fresh_record) ∧
    ∃ cl, update_calls 0 ([(2000, late_first_reading)] ++ [(2000, late_stalled_reading)])
        (fun _ => fresh_record) = some cl ∧
      (cl 0).prev_cpu_idle = late_stalled_reading.cur_idle_time ∧
      (cl 0).prev_cpu_wall = late_stalled_reading.cur_wall_time ∧
      (cl 0).prev_cpu_iowait = late_stalled_reading.cur_iowait_time :=
  ⟨by decide,
    C11_prev_fields_track 0 [(2000, late_first_reading)] 2000 late_stalled_reading
      (fun _ => fresh_record) (by decide)⟩

/-! ## C12 -/

/-- C12, as stated, fails: with `rq_avg = 37` and `is_dual_locked = 1` the
readout is `100.0`, not `3.7`, and a second immediate read is `100.0` again,
not `0.0`. -/
theorem C12_counterexample :
    rq_37.rq_avg = 37 ∧
    (run_queue_avg_show 1 rq_37).1 = "100.0\n" ∧
    (run_queue_avg_show 1 (run_queue_avg_show 1 rq_37).2).1 = "100.0\n" ∧
    format_tenths 37 = "3.7\n" ∧ format_tenths 0 = "0.0\n" := by
  decide

/-- C12 (amended): for every stored run-queue average V, `run_queue_avg_show`
resets `rq_avg` to 0 and leaves the other fields alone; when `is_dual_locked`
is not 1 it reports V in tenths, the text `<V/10>.<V mod 10>`, and a second
immediate read reports `0.0`; when `is_dual_locked` is 1 it reports `100.0`
(the value 1000) on every read, whatever V is. -/
theorem C12_run_queue_avg_readout (is_dual_locked : Int) (rq_info : rq_data) :
    (run_queue_avg_show is_dual_locked rq_info).2 = { rq_info with rq_avg := 0 } ∧
    (is_dual_locked ≠ 1 →
      (run_queue_avg_show is_dual_locked rq_info).1
        = toString (rq_info.rq_avg / 10) ++ "." ++ toString (rq_info.rq_avg % 10) ++ "\n" ∧
      (run_queue_avg_show is_dual_locked (run_queue_avg_show is_dual_locked rq_info).2).1
        = "0.0\n") ∧
    (is_dual_locked = 1 →
      (run_queue_avg_show is_dual_locked rq_info).1 = "100.0\n" ∧
      (run_queue_avg_show is_dual_locked (run_queue_avg_show is_dual_locked rq_info).2).1
        = "100.0\n") := by
  refine ⟨rfl, ?_, ?_⟩
  · intro h
    constructor
    · simp [run_queue_avg_show, format_tenths, h]
    · simp only [run_queue_avg_show, if_neg h]
      decide
  · intro h
    constructor
    · simp only [run_queue_avg_show, if_pos h]
      decide
    · simp only [run_queue_avg_show, if_pos h]
      decide

/-- C12 (amended), an instance: V = 37 reads as `3.7` when the controller is
unlocked, and the next read is `0.0`. -/
theorem C12_run_queue_avg_readout_witness :
    (run_queue_avg_show 0 rq_37).1 = "3.7\n" ∧
    (run_queue_avg_show 0 (run_queue_avg_show 0 rq_37).2).1 = "0.0\n" := by
  obtain ⟨h1, h2⟩ := (C12_run_queue_avg_readout 0 rq_37).2.1 (by decide)
  refine ⟨?_, h2⟩
  rw [h1]
  decide

/-! ## C13 -/

/-- C13: for every stored value V of `rq_info.rq_avg`, `get_rq_info` returns V
and leaves `rq_avg = 0` with every other field of the run-queue state
unchanged, so that a second immediate call returns 0. -/
theorem C13_get_rq_info_read_reset (rq_info : rq_data) :
    (get_rq_info rq_info).1 = rq_info.rq_avg ∧
    (get_rq_info rq_info).2 = { rq_info with rq_avg := 0 } ∧
    (get_rq_info rq_info).2.rq_avg = 0 ∧
    (get_rq_info rq_info).2.rq_poll_jiffies = rq_info.rq_poll_jiffies ∧
    (get_rq_info rq_info).2.def_timer_jiffies = rq_info.def_timer_jiffies ∧
    (get_rq_info rq_info).2.rq_poll_last_jiffy = rq_info.rq_poll_last_jiffy ∧
    (get_rq_info rq_info).2.def_timer_last_jiffy = rq_info.def_timer_last_jiffy ∧
    (get_rq_info rq_info).2.def_interval = rq_info.def_interval ∧
    (get_rq_info rq_info).2.def_start_time = rq_info.def_start_time ∧
    (get_rq_info rq_info).2.init = rq_info.init ∧
    (get_rq_info (get_rq_info rq_info).2).1 = 0 :=
  ⟨rfl, rfl, rfl, rfl, rfl, rfl, rfl, rfl, rfl, rfl, rfl⟩

/-! ## C14 -/

theorem dual_boost_on_twice (p1 p2 : platform) (s : dvfs_state) :
    dual_boost p2 1 (dual_boost p1 1 s) = dual_boost p1 1 s := by
  by_cases hl : s.is_dual_locked = 0
  · simp [dual_boost, hl]
  · simp [dual_boost, hl]

theorem dual_boost_off_twice (p1 p2 : platform) (s : dvfs_state)
    (hs : p2.sysdev = p1.sysdev) :
    dual_boost p2 0 (dual_boost p1 0 s) = dual_boost p1 0 s := by
  by_cases hst : s.stall_mpdecision = 1
  · by_cases hd : p1.sysdev = true
    · have hd2 : p2.sysdev = true := by rw [hs, hd]
      simp [dual_boost, hst, hd, hd2]
    · have hd1 : p1.sysdev = false := by simpa using hd
      have hd2 : p2.sysdev = false := by rw [hs, hd1]
      by_cases hp : s.work_pending = true
      · by_cases ho : s.cpu_online = true
        · simp [dual_boost, run_dvfs_hotplug_work, dvfs_hotplug_callback, hst, hd1, hd2, hp, ho]
        · have ho1 : s.cpu_online = false := by simpa using ho
          by_cases hr : p1.cpu_up_ret = 0
          · simp [dual_boost, run_dvfs_hotplug_work, dvfs_hotplug_callback, hst, hd1, hd2, hp,
              ho1, hr]
          · simp [dual_boost, run_dvfs_hotplug_work, dvfs_hotplug_callback, hst, hd1, hd2, hp,
              ho1, hr]
      · have hp1 : s.work_pending = false := by simpa using hp
        simp [dual_boost, run_dvfs_hotplug_work, hst, hd1, hd2, hp1]
  · simp [dual_boost, hst]

/-- C14, as stated, fails: in the LOCKED state with the forced flag set, a first
`dual_boost(0)` during which `get_cpu_sysdev(NON_BOOT_CPU)` is NULL leaves
`stall_mpdecision = 1` and sends nothing; a second `dual_boost(0)` during which
it is non-NULL sends a uevent and clears `stall_mpdecision`, so the state after
the two calls is not the state after the first. -/
theorem C14_counterexample :
    dual_boost sysdev_missing 0 forced_locked_state
      = { is_dual_locked := 0, stall_mpdecision := 1, work_pending := false,
          cpu_online := true, uevents := 1 } ∧
    dual_boost cpu_up_ok 0 (dual_boost sysdev_missing 0 forced_locked_state)
      = { is_dual_locked := 0, stall_mpdecision := 0, work_pending := false,
          cpu_online := true, uevents := 2 } ∧
    dual_boost cpu_up_ok 0 (dual_boost sysdev_missing 0 forced_locked_state)
      ≠ dual_boost sysdev_missing 0 forced_locked_state := by
  decide

/-- C14 (amended): for every controller state and every outcome of the platform
calls in the first and in the second call (`p1`, `p2`), `dual_boost(1)`
followed by `dual_boost(1)` leaves the same state as a single `dual_boost(1)`,
the second call queueing no work and sending no uevent; and, when
`get_cpu_sysdev(NON_BOOT_CPU)` gives the same answer in both calls (whatever
`cpu_up` returns in either), `dual_boost(0)` followed by `dual_boost(0)` leaves
the same state as a single `dual_boost(0)`. -/
theorem C14_dual_boost_idempotent (p1 p2 : platform) (s : dvfs_state) :
    dual_boost p2 1 (dual_boost p1 1 s) = dual_boost p1 1 s ∧
    (dual_boost p2 1 (dual_boost p1 1 s)).work_pending = (dual_boost p1 1 s).work_pending ∧
    (dual_boost p2 1 (dual_boost p1 1 s)).uevents = (dual_boost p1 1 s).uevents ∧
    (p2.sysdev = p1.sysdev →
      dual_boost p2 0 (dual_boost p1 0 s) = dual_boost p1 0 s) := by
  have h1 := dual_boost_on_twice p1 p2 s
  exact ⟨h1, by rw [h1], by rw [h1], dual_boost_off_twice p1 p2 s⟩

/-- C14 (amended), an instance: the state with the work queued and the forced
flag set, `cpu_up` succeeding in the first call and failing in the second,
`get_cpu_sysdev` non-NULL in both. -/
theorem C14_dual_boost_idempotent_witness :
    cpu_up_fails.sysdev = cpu_up_ok.sysdev ∧
    dual_boost cpu_up_fails 1 (dual_boost cpu_up_ok 1 forced_pending_state)
      = dual_boost cpu_up_ok 1 forced_pending_state ∧
    dual_boost cpu_up_fails 0 (dual_boost cpu_up_ok 0 forced_pending_state)
      = dual_boost cpu_up_ok 0 forced_pending_state ∧
    dual_boost cpu_up_ok 0 forced_pending_state
      = { is_dual_locked := 0, stall_mpdecision := 0, work_pending := false,
          cpu_online := true, uevents := 2 } :=
  ⟨by decide,
    (C14_dual_boost_idempotent cpu_up_ok cpu_up_fails forced_pending_state).1,
    (C14_dual_boost_idempotent cpu_up_ok cpu_up_fails forced_pending_state).2.2.2 (by decide),
    by decide⟩

/-! ## C15 -/

/-- C15, as stated, fails: after `dual_boost(1)`, `dual_boost(0)` and then the
deferred work running with `cpu_up` succeeding, the controller is UNLOCKED
(`is_dual_locked = 0`) with `stall_mpdecision = 1`; a call `dual_boost(0)` in
that state sends a uevent and clears `stall_mpdecision`. -/
theorem C15_counterexample :
    dvfs_run late_work_steps (dvfs_init false)
      = { is_dual_locked := 0, stall_mpdecision := 1, work_pending := false,
          cpu_online := true, uevents := 1 } ∧
    dual_boost cpu_up_ok 0 (dvfs_run late_work_steps (dvfs_init false))
      = { is_dual_locked := 0, stall_mpdecision := 0, work_pending := false,
          cpu_online := true, uevents := 2 } := by
  decide

/-- C15 (amended): in every state reachable from initialisation through
`dual_boost` calls and runs of the deferred work, calling `dual_boost(0)` while
`is_dual_locked = 0` is a no-op whenever `stall_mpdecision` is not 1: no flag
changes, no work runs, no uevent is sent. When `stall_mpdecision` is 1 (and
`get_cpu_sysdev` is non-NULL) the call clears `stall_mpdecision` and sends a
uevent although the controller is UNLOCKED. -/
theorem C15_unlocked_disable (steps : List dvfs_step) (online : Bool) (p : platform)
    (hunlocked : (dvfs_run steps (dvfs_init online)).is_dual_locked = 0) :
    ((dvfs_run steps (dvfs_init online)).stall_mpdecision ≠ 1 →
      dual_boost p 0 (dvfs_run steps (dvfs_init online))
        = dvfs_run steps (dvfs_init online)) ∧
    ((dvfs_run steps (dvfs_init online)).stall_mpdecision = 1 → p.sysdev = true →
      (dual_boost p 0 (dvfs_run steps (dvfs_init online))).is_dual_locked = 0 ∧
      (dual_boost p 0 (dvfs_run steps (dvfs_init online))).stall_mpdecision = 0 ∧
      (dvfs_run steps (dvfs_init online)).uevents
        < (dual_boost p 0 (dvfs_run steps (dvfs_init online))).uevents) := by
  generalize dvfs_run steps (dvfs_init online) = s at hunlocked ⊢
  constructor
  · intro hst
    have : ({ s with is_dual_locked := 0 } : dvfs_state) = s := by
      cases s; simp_all
    simp [dual_boost, hst, this]
  · intro hst hd
    refine ⟨?_, ?_, ?_⟩
    · simp [dual_boost, hst, hd]
    · simp [dual_boost, hst, hd]
    · simp only [dual_boost, hst, hd, run_dvfs_hotplug_work, dvfs_hotplug_callback]
      split_ifs <;> simp <;> omega

/-- C15 (amended), an instance: after `dual_boost(1)` and `dual_boost(0)` the
controller is UNLOCKED with `stall_mpdecision = 0`, and a further
`dual_boost(0)` changes nothing. -/
theorem C15_unlocked_disable_witness :
    (dvfs_run [dvfs_step.boost cpu_up_ok 1, dvfs_step.boost cpu_up_ok 0]
      (dvfs_init false)).is_dual_locked = 0 ∧
    dual_boost cpu_up_ok 0
        (dvfs_run [dvfs_step.boost cpu_up_ok 1, dvfs_step.boost cpu_up_ok 0] (dvfs_init false))
      = dvfs_run [dvfs_step.boost cpu_up_ok 1, dvfs_step.boost cpu_up_ok 0] (dvfs_init false) :=
  ⟨by decide,
    (C15_unlocked_disable [dvfs_step.boost cpu_up_ok 1, dvfs_step.boost cpu_up_ok 0] false
      cpu_up_ok (by decide)).1 (by decide)⟩

/-! ## Lemmas on the size of the load -/

theorem cur_load_le (t : cpu_times) (p : cpu_load_data) : cur_load t p ≤ 100 := by
  unfold cur_load mul32
  apply Nat.div_le_of_le_mul
  have h1 : 100 * (wall_time t p - idle_time t p) % U32
      ≤ 100 * (wall_time t p - idle_time t p) := Nat.mod_le _ _
  have h2 : wall_time t p - idle_time t p ≤ wall_time t p := Nat.sub_le _ _
  omega

theorem load_at_max_freq_le (freq : Nat) (t : cpu_times) (p : cpu_load_data)
    (hf : freq ≤ p.policy_max) :
    load_at_max_freq freq t p ≤ 100 := by
  unfold load_at_max_freq mul32
  apply Nat.div_le_of_le_mul
  have h1 : cur_load t p * freq % U32 ≤ cur_load t p * freq := Nat.mod_le _ _
  have h2 : cur_load t p * freq ≤ 100 * freq := Nat.mul_le_mul_right _ (cur_load_le t p)
  have h3 : 100 * freq ≤ 100 * p.policy_max := Nat.mul_le_mul_left _ hf
  rw [Nat.mul_comm p.policy_max 100]
  omega

theorem update_pcpu_none_iff (freq : Nat) (t : cpu_times) (p : cpu_load_data)
    (hpm : p.policy_max ≠ 0) :
    update_average_load_pcpu freq t p = none ↔
      (¬ degenerate t p ∧ p.avg_load_maxfreq ≠ 0 ∧
        add32 (wall_time t p) p.window_size = 0) := by
  unfold update_average_load_pcpu
  simp only
  split_ifs <;> simp_all

theorem update_pcpu_avg_le (freq : Nat) (t : cpu_times) (p : cpu_load_data)
    (hpm : p.policy_max ≠ 0) (hle : p.prev_cpu_wall ≤ t.cur_wall_time)
    (hr : t.cur_wall_time < 2 ^ 64)
    (hwin : p.window_size + (t.cur_wall_time - p.prev_cpu_wall) < 2 ^ 32)
    (hf : freq ≤ p.policy_max) (ha : p.avg_load_maxfreq ≤ 100) :
    ∃ q, update_average_load_pcpu freq t p = some q ∧
      q.prev_cpu_wall = t.cur_wall_time ∧ q.policy_max = p.policy_max ∧
      q.window_size ≤ p.window_size + (t.cur_wall_time - p.prev_cpu_wall) ∧
      q.avg_load_maxfreq ≤ 100 := by
  obtain ⟨q, hq, _, h2, _, h4, h5, h6⟩ := update_pcpu_step freq t p hpm hle hr hwin
  refine ⟨q, hq, h2, h4, h5, ?_⟩
  rcases h6 with h | ⟨_, h⟩ | ⟨_, h⟩
  · rw [h]; exact ha
  · rw [h]
    exact load_at_max_freq_le freq t p hf
  · rw [h]
    have hl := load_at_max_freq_le freq t p hf
    apply Nat.div_le_of_le_mul
    have e1 := Nat.mod_le (p.avg_load_maxfreq * p.window_size % 2 ^ 32
      + load_at_max_freq freq t p * (t.cur_wall_time - p.prev_cpu_wall) % 2 ^ 32) (2 ^ 32)
    have e2 := Nat.mod_le (p.avg_load_maxfreq * p.window_size) (2 ^ 32)
    have e3 := Nat.mod_le
      (load_at_max_freq freq t p * (t.cur_wall_time - p.prev_cpu_wall)) (2 ^ 32)
    have e4 : p.avg_load_maxfreq * p.window_size ≤ 100 * p.window_size :=
      Nat.mul_le_mul_right _ ha
    have e5 : load_at_max_freq freq t p * (t.cur_wall_time - p.prev_cpu_wall)
        ≤ 100 * (t.cur_wall_time - p.prev_cpu_wall) := Nat.mul_le_mul_right _ hl
    rw [Nat.add_mul, Nat.mul_comm p.window_size 100,
      Nat.mul_comm (t.cur_wall_time - p.prev_cpu_wall) 100]
    omega

theorem weighted_mean_between (a l W w : Nat) (hpos : 0 < W + w) :
    min a l ≤ (a * W + l * w) / (W + w) ∧ (a * W + l * w) / (W + w) ≤ max a l := by
  constructor
  · rw [Nat.le_div_iff_mul_le hpos, Nat.mul_add]
    exact Nat.add_le_add (Nat.mul_le_mul_right _ (Nat.min_le_left a l))
      (Nat.mul_le_mul_right _ (Nat.min_le_right a l))
  · apply Nat.div_le_of_le_mul
    rw [Nat.add_mul, Nat.mul_comm W, Nat.mul_comm w]
    exact Nat.add_le_add (Nat.mul_le_mul_right _ (Nat.le_max_left a l))
      (Nat.mul_le_mul_right _ (Nat.le_max_right a l))

/-! ## C16 -/

/-- C16, as stated, fails. (a) Two samples of 30 s without idle time at
`freq = policy_max`: before the second call `avg_load_maxfreq = 100`, the
sample's normalized load is 100, and the call leaves 28, below both. (b) A
sequence of two calls from the fresh record with `freq = policy_max`: 2^31 us
with 21474837 us busy, then 2^31 + 1 us busy; the window wraps and
`avg_load_maxfreq` ends as 2147483648, far above 100. -/
theorem C16_counterexample :
    ((update_average_load (fun _ => busy_30s_reading) 2000 0 (fun _ => fresh_record)).map
        (fun cl => (cl 0).avg_load_maxfreq) = some 100 ∧
      ¬ degenerate busy_60s_reading (store_prev busy_30s_reading fresh_record) ∧
      load_at_max_freq 2000 busy_60s_reading (store_prev busy_30s_reading fresh_record)
        = 100 ∧
      (update_calls 0 [(2000, busy_30s_reading), (2000, busy_60s_reading)]
          (fun _ => fresh_record)).map (fun cl => (cl 0).avg_load_maxfreq) = some 28) ∧
    (fresh_record.avg_load_maxfreq = 0 ∧ 2000 ≤ fresh_record.policy_max ∧
      ¬ degenerate long_window_reading fresh_record ∧
      ¬ degenerate wrap_window_reading (store_prev long_window_reading fresh_record) ∧
      (update_calls 0 [(2000, long_window_reading), (2000, wrap_window_reading)]
          (fun _ => fresh_record)).map (fun cl => (cl 0).avg_load_maxfreq)
        = some 2147483648) := by
  decide

/-- C16 (amended): (1) for every record with `policy_max > 0` and every
non-degenerate sample for which neither `avg*window + load*wall` nor
`window + wall` reaches `2^32`, `update_average_load` returns and the
`avg_load_maxfreq` it leaves lies between the minimum and the maximum of the
previous `avg_load_maxfreq` and the sample's normalized load. (2) Over any
sequence of calls on one CPU that starts with `avg_load_maxfreq ≤ 100`, in
which every frequency is at most `policy_max`, the wall counter never decreases
and the window stays below `2^32`, every call returns and leaves
`avg_load_maxfreq` within 0..100. -/
theorem C16_weighted_mean_bounds :
    (∀ (ts : Nat → cpu_times) (freq cpu : Nat) (cpuload : Nat → cpu_load_data),
      0 < (cpuload cpu).policy_max →
      ¬ degenerate (ts cpu) (cpuload cpu) →
      (cpuload cpu).avg_load_maxfreq * (cpuload cpu).window_size
        + load_at_max_freq freq (ts cpu) (cpuload cpu) * wall_time (ts cpu) (cpuload cpu)
          < 2 ^ 32 →
      (cpuload cpu).window_size + wall_time (ts cpu) (cpuload cpu) < 2 ^ 32 →
      ∃ cl, update_average_load ts freq cpu cpuload = some cl ∧
        min (cpuload cpu).avg_load_maxfreq (load_at_max_freq freq (ts cpu) (cpuload cpu))
          ≤ (cl cpu).avg_load_maxfreq ∧
        (cl cpu).avg_load_maxfreq
          ≤ max (cpuload cpu).avg_load_maxfreq
              (load_at_max_freq freq (ts cpu) (cpuload cpu))) ∧
    (∀ (cpu : Nat) (pre post : List (Nat × cpu_times)) (freq : Nat) (t : cpu_times)
      (cpuload : Nat → cpu_load_data),
      0 < (cpuload cpu).policy_max →
      (cpuload cpu).avg_load_maxfreq ≤ 100 →
      wall_nondecreasing (cpuload cpu).prev_cpu_wall (pre ++ (freq, t) :: post) →
      (∀ c ∈ pre ++ (freq, t) :: post, c.1 ≤ (cpuload cpu).policy_max ∧
        c.2.cur_wall_time < 2 ^ 64 ∧
        (cpuload cpu).window_size
          + (c.2.cur_wall_time - (cpuload cpu).prev_cpu_wall) < 2 ^ 32) →
      ∃ cl, update_calls cpu (pre ++ [(freq, t)]) cpuload = some cl ∧
        0 ≤ (cl cpu).avg_load_maxfreq ∧ (cl cpu).avg_load_maxfreq ≤ 100) := by
  constructor
  · intro ts freq cpu cpuload hpm hnd hnum hden
    have hpm0 : (cpuload cpu).policy_max ≠ 0 := Nat.pos_iff_ne_zero.1 hpm
    have hU : U32 = 2 ^ 32 := by decide
    by_cases h0 : (cpuload cpu).avg_load_maxfreq = 0
    · refine ⟨_, update_average_load_eq ts freq cpu cpuload _
        (update_pcpu_first freq (ts cpu) (cpuload cpu) hnd hpm0 h0), ?_, ?_⟩
      · rw [Function.update_same]; exact Nat.min_le_right _ _
      · rw [Function.update_same]; exact Nat.le_max_right _ _
    · have hw0 : wall_time (ts cpu) (cpuload cpu) ≠ 0 := ((not_degenerate_iff _ _).1 hnd).1
      have hsum : add32 (wall_time (ts cpu) (cpuload cpu)) (cpuload cpu).window_size
          = (cpuload cpu).window_size + wall_time (ts cpu) (cpuload cpu) := by
        rw [add32, hU, Nat.add_comm]; exact Nat.mod_eq_of_lt hden
      have hne : add32 (wall_time (ts cpu) (cpuload cpu)) (cpuload cpu).window_size ≠ 0 := by
        rw [hsum]; omega
      have hnumeq : add32 (mul32 (cpuload cpu).avg_load_maxfreq (cpuload cpu).window_size)
          (mul32 (load_at_max_freq freq (ts cpu) (cpuload cpu))
            (wall_time (ts cpu) (cpuload cpu)))
          = (cpuload cpu).avg_load_maxfreq * (cpuload cpu).window_size
            + load_at_max_freq freq (ts cpu) (cpuload cpu)
              * wall_time (ts cpu) (cpuload cpu) := by
        have e1 : (cpuload cpu).avg_load_maxfreq * (cpuload cpu).window_size % 2 ^ 32
            = (cpuload cpu).avg_load_maxfreq * (cpuload cpu).window_size :=
          Nat.mod_eq_of_lt (by omega)
        have e2 : load_at_max_freq freq (ts cpu) (cpuload cpu)
              * wall_time (ts cpu) (cpuload cpu) % 2 ^ 32
            = load_at_max_freq freq (ts cpu) (cpuload cpu)
              * wall_time (ts cpu) (cpuload cpu) :=
          Nat.mod_eq_of_lt (by omega)
        rw [add32, mul32, mul32, hU, e1, e2, Nat.mod_eq_of_lt hnum]
      obtain ⟨hlo, hhi⟩ := weighted_mean_between (cpuload cpu).avg_load_maxfreq
        (load_at_max_freq freq (ts cpu) (cpuload cpu)) (cpuload cpu).window_size
        (wall_time (ts cpu) (cpuload cpu)) (by omega)
      refine ⟨_, update_average_load_eq ts freq cpu cpuload _
        (update_pcpu_merge freq (ts cpu) (cpuload cpu) hnd hpm0 h0 hne), ?_, ?_⟩
      · rw [Function.update_same]
        show _ ≤ add32 _ _ / add32 _ _
        rw [hnumeq, hsum]; exact hlo
      · rw [Function.update_same]
        show add32 _ _ / add32 _ _ ≤ _
        rw [hnumeq, hsum]; exact hhi
  · intro cpu pre
    induction pre with
    | nil =>
      intro post freq t cpuload hpm ha hmono hb
      obtain ⟨hle, _⟩ := wall_chain_tail _ _ _ hmono
      obtain ⟨hf, hr, hwin⟩ := hb (freq, t) (List.mem_cons_self _ _)
      obtain ⟨q, hq, _, _, _, h5⟩ :=
        update_pcpu_avg_le freq t (cpuload cpu) (Nat.pos_iff_ne_zero.1 hpm) hle hr hwin hf ha
      refine ⟨Function.update cpuload cpu q, ?_, Nat.zero_le _, ?_⟩
      · rw [List.nil_append, update_calls,
          update_average_load_eq (fun _ => t) freq cpu cpuload q hq]
        rfl
      · rw [Function.update_same]; exact h5
    | cons c pre ih =>
      intro post freq t cpuload hpm ha hmono hb
      obtain ⟨hle, htail⟩ := wall_chain_tail _ _ _ hmono
      obtain ⟨hf, hr, hwin⟩ := hb c (List.mem_cons_self _ _)
      obtain ⟨q, hq, h2, h3, h4, h5⟩ :=
        update_pcpu_avg_le c.1 c.2 (cpuload cpu) (Nat.pos_iff_ne_zero.1 hpm) hle hr hwin hf ha
      have hnext := wall_chain_le _ _ htail
      obtain ⟨cl, hcl, hres⟩ := ih post freq t (Function.update cpuload cpu q)
        (by rw [Function.update_same, h3]; exact hpm)
        (by rw [Function.update_same]; exact h5)
        (by rw [Function.update_same, h2]; exact htail)
        (by
          intro d hd
          obtain ⟨hdf, hdr, hdw⟩ := hb d (List.mem_cons_of_mem _ hd)
          have := hnext d hd
          rw [Function.update_same, h2, h3]
          exact ⟨hdf, hdr, by omega⟩)
      refine ⟨cl, ?_, hres⟩
      rw [List.cons_append, update_calls,
        update_average_load_eq (fun _ => c.2) c.1 cpu cpuload q hq]
      exact hcl

/-- C16 (amended), an instance: (1) the record with average 25 over 100 us and a
half-idle sample of 100 us at `freq = policy_max` (load 50) ends with 37,
between 25 and 50; (2) the same two calls as a sequence keep the average within
0..100. -/
theorem C16_weighted_mean_bounds_witness :
    (∃ cl, update_average_load (fun _ => then_busy_100us_reading) 2000 0
        (fun _ => quarter_load_record) = some cl ∧
      min 25 50 ≤ (cl 0).avg_load_maxfreq ∧ (cl 0).avg_load_maxfreq ≤ max 25 50) ∧
    (∃ cl, update_calls 0 ([(1000, half_idle_reading)] ++ [(2000, then_busy_100us_reading)])
        (fun _ => fresh_record) = some cl ∧
      0 ≤ (cl 0).avg_load_maxfreq ∧ (cl 0).avg_load_maxfreq ≤ 100) :=
  ⟨C16_weighted_mean_bounds.1 (fun _ => then_busy_100us_reading) 2000 0
      (fun _ => quarter_load_record) (by decide) (by decide) (by decide) (by decide),
    C16_weighted_mean_bounds.2 0 [(1000, half_idle_reading)] [] 2000 then_busy_100us_reading
      (fun _ => fresh_record) (by decide) (by decide) (by decide) (by decide)⟩

/-! ## C17 -/

/-- C17: the code at the failing input. From the fresh record
(`policy_max = 2000`), a first call with a reading 2^31 us after boot (21474837
us busy) leaves `avg_load_maxfreq = 1` and `window_size = 2^31`. A second call
2^31 us later is not degenerate and takes the merge branch, where the 32-bit
sum `wall_time + window_size = 2^31 + 2^31` is 0: the division of lines 147-150
has a zero divisor, and the call has no result. -/
theorem C17_merge_divisor_wraps_to_zero :
    0 < fresh_record.policy_max ∧
    (update_average_load (fun _ => long_window_reading) 2000 0 (fun _ => fresh_record)).map
        (fun cl => ((cl 0).avg_load_maxfreq, (cl 0).window_size))
      = some (1, 2147483648) ∧
    wall_time zero_divisor_reading (store_prev long_window_reading fresh_record)
      = 2147483648 ∧
    ¬ degenerate zero_divisor_reading (store_prev long_window_reading fresh_record) ∧
    add32 2147483648 2147483648 = 0 ∧
    update_calls 0 [(2000, long_window_reading), (2000, zero_divisor_reading)]
      (fun _ => fresh_record) = none := by
  refine ⟨by decide, by decide, by decide, by decide, by decide, ?_⟩
  have h : (update_calls 0 [(2000, long_window_reading), (2000, zero_divisor_reading)]
      (fun _ => fresh_record)).isNone = true := by decide
  exact Option.isNone_iff_eq_none.1 h

/-! ## C18 -/

/-- C18: for every non-degenerate sample (`wall_delta != 0` and `wall_delta` not
smaller than the effective idle delta), the sample passes the test of line 129,
the busy percentage `cur_load` is the value of
`100 * (wall_delta - idle) / wall_delta` in 32-bit unsigned arithmetic,
subtraction and product both taken modulo `2^32`, and it is at most 100, also
when the product wraps. -/
theorem C18_cur_load_at_most_100 (t : cpu_times) (pcpu : cpu_load_data)
    (hwall : wall_time t pcpu ≠ 0)
    (hidle : idle_time t pcpu ≤ wall_time t pcpu) :
    ¬ degenerate t pcpu ∧
    cur_load t pcpu
      = (100 * ((wall_time t pcpu + 2 ^ 32 - idle_time t pcpu) % 2 ^ 32)) % 2 ^ 32
          / wall_time t pcpu ∧
    cur_load t pcpu ≤ 100 := by
  have hlt : wall_time t pcpu < 2 ^ 32 := by
    unfold wall_time to_u32 U32; omega
  have hsub : (wall_time t pcpu + 2 ^ 32 - idle_time t pcpu) % 2 ^ 32
      = wall_time t pcpu - idle_time t pcpu := by omega
  refine ⟨(not_degenerate_iff t pcpu).2 ⟨hwall, hidle⟩, ?_, cur_load_le t pcpu⟩
  rw [hsub]
  rfl

/-- C18, an instance: 50 s of wall time without idle time; the product
`100 * 50000000` wraps and `cur_load` is 14. -/
theorem C18_cur_load_at_most_100_witness :
    cur_load busy_50s_reading fresh_record = 14 ∧
    cur_load busy_50s_reading fresh_record ≤ 100 ∧
    2 ^ 32 ≤ 100 * (wall_time busy_50s_reading fresh_record
      - idle_time busy_50s_reading fresh_record) :=
  ⟨by decide,
    (C18_cur_load_at_most_100 busy_50s_reading fresh_record (by decide) (by decide)).2.2,
    by decide⟩

end MsmRqStats
